import Mathlib

/-!
ALSA audio output driver: a shallow embedding of `audio/out/ao_alsa.c`.

The driver talks to the sound library through a handle.  The library and
the device behind it are modelled as an oracle: a function from the
history of calls (with their answers) and the next call to the answer of
that call.  Every driver function threads a `World` (oracle and history)
and so leaves a trace of the calls it issued.

Machine integers are `Int`/`Nat` with explicit wrap-around where a C
conversion can lose bits.  A C `double` is idealised as a rational
number; the development only relies on equalities and signs of such values.
-/

namespace AoAlsa

/-! ## Machine integers and constants of the platform -/

/-- Conversion of an integer value to C `unsigned` (32 bits). -/
def to_unsigned (x : Int) : Nat := (x % 4294967296).toNat

/-- Conversion of an integer value to C `int` (32 bits, two's complement). -/
def to_int (x : Int) : Int := (x + 2147483648) % 4294967296 - 2147483648

/-- Conversion of an unsigned frame count (`snd_pcm_uframes_t`) to C `int`:
the low 32 bits, read as two's complement. -/
def uframes_to_int (n : Nat) : Int :=
  if n % 4294967296 < 2147483648 then ((n % 4294967296 : Nat) : Int)
  else ((n % 4294967296 : Nat) : Int) - 4294967296

/-- Linux `errno` value. -/
def EINTR : Int := 4
/-- Linux `errno` value. -/
def ENXIO : Int := 6
/-- Linux `errno` value. -/
def EAGAIN : Int := 11
/-- Linux `errno` value. -/
def EBUSY : Int := 16
/-- Linux `errno` value. -/
def EINVAL : Int := 22
/-- Linux `errno` value. -/
def ESTRPIPE : Int := 86

/-- Open mode bit of `snd_pcm_open` (alsa/pcm.h). -/
def SND_PCM_NONBLOCK : Int := 1

/-- Flag of `play` marking the last chunk of a stream (declared in ao.h). -/
def AOPLAY_FINAL_CHUNK : Nat := 1

/-- Target buffer time in microseconds (`#define BUFFER_TIME 250000`). -/
def BUFFER_TIME : Int := 250000

/-- Target period count (`#define FRAGCOUNT 16`). -/
def FRAGCOUNT : Int := 16

/-! ## Enumerations of the sound library and of the player core -/

/-- Transport state reported by `snd_pcm_state`. -/
inductive PcmState
  | OPEN | SETUP | PREPARED | RUNNING | XRUN | DRAINING | PAUSED | SUSPENDED
  | DISCONNECTED
  deriving DecidableEq, Repr

/-- The native sample formats named by the driver. -/
inductive SndPcmFormat
  | UNKNOWN | S8 | U8 | U16 | S16 | U32 | S32
  | U24_3LE | U24_3BE | S24_3LE | S24_3BE | FLOAT | MPEG
  deriving DecidableEq, Repr

/-- The access modes requested by the driver. -/
inductive PcmAccess
  | RW_INTERLEAVED | RW_NONINTERLEAVED
  deriving DecidableEq, Repr

/-- Sample formats of the player core (`AF_FORMAT_*`).  The driver names
the first eleven; every other code of audio/format.h is `other`. -/
inductive AfFormat
  | UNKNOWN | S8 | U8 | U16 | S16 | U32 | S32 | U24 | S24 | FLOAT | S_MP3
  | other (code : Nat)
  deriving DecidableEq, Repr

/-- Channel positions of the sound library (`SND_CHMAP_*`). -/
inductive SndChmapPos
  | UNKNOWN | FL | FR | RL | RR | FC | LFE | SL | SR | RC | FLC | FRC
  | FLW | FRW | TC | TFL | TFR | TFC | TRL | TRR | TRC | MONO | LAST
  | other (code : Nat)
  deriving DecidableEq, Repr

/-- Speaker identifiers of the player core (`MP_SP(...)`), with
`COUNT` standing for `MP_SPEAKER_ID_COUNT`. -/
inductive MpSpeaker
  | FL | FR | BL | BR | FC | LFE | SL | SR | BC | FLC | FRC | WL | WR
  | TC | TFL | TFR | TFC | TBL | TBR | TBC | COUNT
  | other (code : Nat)
  deriving DecidableEq, Repr

/-- The record `struct mp_chmap`: a channel count and the speaker array. -/
structure mp_chmap where
  num : Int
  speaker : List MpSpeaker
  deriving DecidableEq, Repr

/-- The mixer channels the driver addresses (`SND_MIXER_SCHN_*`). -/
inductive MixerChannel
  | FRONT_LEFT | FRONT_RIGHT
  deriving DecidableEq, Repr

/-- A call the driver issues to the mixer interface of the sound library. -/
inductive MixerCall
  | snd_mixer_open (mode : Int)
  | snd_mixer_attach (name : Option String)
  | snd_mixer_selem_register
  | snd_mixer_load
  | snd_mixer_find_selem (name : Option String) (index : Int)
  | snd_mixer_selem_get_playback_volume_range
  | snd_mixer_selem_set_playback_volume (channel : MixerChannel) (value : Int)
  | snd_mixer_selem_get_playback_volume (channel : MixerChannel)
  | snd_mixer_selem_has_playback_switch
  | snd_mixer_selem_has_playback_switch_joined
  | snd_mixer_selem_set_playback_switch (channel : MixerChannel) (value : Int)
  | snd_mixer_selem_get_playback_switch (channel : MixerChannel)
  | snd_mixer_close (handle : Nat)
  deriving DecidableEq, Repr

/-! ## The oracle: calls, answers, world -/

/-- A call the driver issues to the sound library, the C library or the
player core, with the arguments that matter.  The calls to the mixer
interface are gathered under `mixer`. -/
inductive Call
  | snd_pcm_open (name : String) (mode : Int)
  | snd_pcm_close (handle : Nat)
  | snd_pcm_nonblock (nonblock : Int)
  | snd_pcm_hw_params_any
  | snd_pcm_hw_params_test_format (fmt : SndPcmFormat)
  | snd_pcm_hw_params_set_format (fmt : SndPcmFormat)
  | snd_pcm_hw_params_set_access (access : PcmAccess)
  | snd_pcm_query_chmaps
  | snd_pcm_hw_params_set_channels_near (n : Int)
  | snd_pcm_hw_params_set_rate_resample (val : Int)
  | snd_pcm_hw_params_set_rate_near (rate : Int)
  | snd_pcm_hw_params_set_buffer_time_near (us : Int)
  | snd_pcm_hw_params_set_periods_near (n : Int)
  | snd_pcm_hw_params
  | calloc
  | snd_pcm_set_chmap (pos : List SndChmapPos)
  | snd_pcm_get_chmap
  | snd_pcm_hw_params_get_buffer_size
  | snd_pcm_hw_params_get_period_size
  | snd_pcm_sw_params_current
  | snd_pcm_sw_params_get_boundary
  | snd_pcm_sw_params_set_start_threshold (val : Nat)
  | snd_pcm_sw_params_set_stop_threshold (val : Nat)
  | snd_pcm_sw_params_set_silence_size (val : Nat)
  | snd_pcm_sw_params
  | snd_pcm_hw_params_can_pause
  | snd_pcm_drain
  | snd_pcm_status
  | snd_pcm_state
  | snd_pcm_delay
  | snd_pcm_forward (frames : Int)
  | snd_pcm_pause (enable : Int)
  | snd_pcm_drop
  | snd_pcm_prepare
  | snd_pcm_resume
  | snd_pcm_writei (frames : Int)
  | snd_pcm_writen (frames : Int)
  | sleep (seconds : Nat)
  | ao_play_silence (samples : Int)
  | mixer (c : MixerCall)
  deriving DecidableEq, Repr

/-- The mixer call `snd_mixer_open`. -/
@[match_pattern] abbrev Call.snd_mixer_open (mode : Int) : Call :=
  Call.mixer (MixerCall.snd_mixer_open mode)

/-- The mixer call `snd_mixer_attach`. -/
@[match_pattern] abbrev Call.snd_mixer_attach (name : Option String) : Call :=
  Call.mixer (MixerCall.snd_mixer_attach name)

/-- The mixer call `snd_mixer_selem_register`. -/
@[match_pattern] abbrev Call.snd_mixer_selem_register : Call :=
  Call.mixer MixerCall.snd_mixer_selem_register

/-- The mixer call `snd_mixer_load`. -/
@[match_pattern] abbrev Call.snd_mixer_load : Call :=
  Call.mixer MixerCall.snd_mixer_load

/-- The mixer call `snd_mixer_find_selem`, with the name and index set in
the element identifier. -/
@[match_pattern] abbrev Call.snd_mixer_find_selem (name : Option String) (index : Int) :
    Call :=
  Call.mixer (MixerCall.snd_mixer_find_selem name index)

/-- The mixer call `snd_mixer_selem_get_playback_volume_range`. -/
@[match_pattern] abbrev Call.snd_mixer_selem_get_playback_volume_range : Call :=
  Call.mixer MixerCall.snd_mixer_selem_get_playback_volume_range

/-- The mixer call `snd_mixer_selem_set_playback_volume`. -/
@[match_pattern] abbrev Call.snd_mixer_selem_set_playback_volume
    (channel : MixerChannel) (value : Int) : Call :=
  Call.mixer (MixerCall.snd_mixer_selem_set_playback_volume channel value)

/-- The mixer call `snd_mixer_selem_get_playback_volume`. -/
@[match_pattern] abbrev Call.snd_mixer_selem_get_playback_volume
    (channel : MixerChannel) : Call :=
  Call.mixer (MixerCall.snd_mixer_selem_get_playback_volume channel)

/-- The mixer call `snd_mixer_selem_has_playback_switch`. -/
@[match_pattern] abbrev Call.snd_mixer_selem_has_playback_switch : Call :=
  Call.mixer MixerCall.snd_mixer_selem_has_playback_switch

/-- The mixer call `snd_mixer_selem_has_playback_switch_joined`. -/
@[match_pattern] abbrev Call.snd_mixer_selem_has_playback_switch_joined : Call :=
  Call.mixer MixerCall.snd_mixer_selem_has_playback_switch_joined

/-- The mixer call `snd_mixer_selem_set_playback_switch`. -/
@[match_pattern] abbrev Call.snd_mixer_selem_set_playback_switch
    (channel : MixerChannel) (value : Int) : Call :=
  Call.mixer (MixerCall.snd_mixer_selem_set_playback_switch channel value)

/-- The mixer call `snd_mixer_selem_get_playback_switch`. -/
@[match_pattern] abbrev Call.snd_mixer_selem_get_playback_switch
    (channel : MixerChannel) : Call :=
  Call.mixer (MixerCall.snd_mixer_selem_get_playback_switch channel)

/-- The mixer call `snd_mixer_close`. -/
@[match_pattern] abbrev Call.snd_mixer_close (handle : Nat) : Call :=
  Call.mixer (MixerCall.snd_mixer_close handle)

/-- The answer to a call: the return value, the value stored through a
signed or an unsigned out-parameter (and through a second signed one), a
transport state, and channel maps.  A call reads the components it has and
ignores the others. -/
structure Resp where
  ret : Int := 0
  sval : Int := 0
  sval2 : Int := 0
  uval : Nat := 0
  st : PcmState := PcmState.OPEN
  maps : Option (List (List SndChmapPos)) := none
  chmap : Option (List SndChmapPos) := none
  deriving DecidableEq, Repr

/-- A call together with the answer it received. -/
abbrev Event := Call × Resp

/-- The device and library: from the history so far and the next call to
the answer. -/
abbrev Device := List Event → Call → Resp

/-- The oracle and the history of the calls issued so far. -/
structure World where
  dev : Device
  log : List Event

/-- The answer the device would give to `c` if it were issued now. -/
def World.peek (w : World) (c : Call) : Resp := w.dev w.log c

/-- Issue `c`: obtain the answer and record the event. -/
def World.call (w : World) (c : Call) : Resp × World :=
  (w.dev w.log c, { w with log := w.log ++ [(c, w.dev w.log c)] })

/-- A device that answers the k-th call of a session with the k-th entry
of a script, and with the default answer once the script is used up. -/
def scripted (rs : List Resp) : Device := fun h _ => rs.getD h.length {}

/-! ## The session record -/

/-- The record `struct priv`. The handle `alsa` is `0` for a null pointer. -/
structure priv where
  alsa : Nat := 0
  alsa_fmt : SndPcmFormat := SndPcmFormat.UNKNOWN
  can_pause : Int := 0
  prepause_frames : Int := 0
  delay_before_pause : ℚ := 0
  buffersize : Int := 0
  outburst : Int := 0
  cfg_block : Int := 1
  cfg_device : Option String := none
  cfg_mixer_device : Option String := some "default"
  cfg_mixer_name : Option String := some "Master"
  cfg_mixer_index : Int := 0
  cfg_resample : Int := 0
  cfg_ni : Int := 0
  deriving DecidableEq, Repr

/-- The fields of `struct ao` the driver reads and writes. -/
structure ao where
  format : AfFormat
  samplerate : Int
  channels : mp_chmap
  device : Option String := none
  deriving DecidableEq, Repr

/-- Declarations of the player core that the driver uses and whose
definitions are outside this file (audio/format.h, audio/chmap.h,
audio/chmap_sel.h, osdep/endian.h, the build configuration). -/
structure Env where
  af_fmt_from_planar : AfFormat → AfFormat
  af_fmt_is_planar : AfFormat → Bool
  AF_FORMAT_IS_IEC61937 : AfFormat → Bool
  AF_FORMAT_IS_SPECIAL : AfFormat → Bool
  little_endian : Bool
  HAVE_CHMAP_API : Bool
  MP_NUM_CHANNELS : Int
  mp_chmap_is_valid : mp_chmap → Bool
  mp_chmap_equals : mp_chmap → mp_chmap → Bool
  mp_chmap_from_str : String → mp_chmap
  mp_chmap_from_channels_alsa : Int → mp_chmap
  ao_chmap_sel_adjust : List mp_chmap → mp_chmap → Bool × mp_chmap

/-! ## Flow control: `get_space`, `get_delay` -/

/-- The function `get_space`.  The availability is read into an `unsigned`,
compared with and divided by `int` fields converted to `unsigned`, and the
product is returned as `int`.  (`outburst = 0` is a division by zero in C.) -/
def get_space (p : priv) (w : World) : Int × World :=
  let r := w.call Call.snd_pcm_status
  if r.1.ret < 0 then (0, r.2)
  else
    let space : Nat := r.1.uval % 4294967296
    let space : Nat :=
      if space > to_unsigned p.buffersize then to_unsigned p.buffersize else space
    (to_int ((space / to_unsigned p.outburst * to_unsigned p.outburst
        % 4294967296 : Nat) : Int), r.2)

/-- The function `get_delay`: delay in seconds between first and last
sample in the buffer. -/
def get_delay (a : ao) (p : priv) (w : World) : ℚ × World :=
  let s := w.call Call.snd_pcm_state
  if s.1.st = PcmState.PAUSED then (p.delay_before_pause, s.2)
  else
    let d := s.2.call Call.snd_pcm_delay
    if d.1.ret < 0 then (0, d.2)
    else if d.1.sval < 0 then
      let f := d.2.call (Call.snd_pcm_forward (-d.1.sval))
      (((0 : Int) : ℚ) / (a.samplerate : ℚ), f.2)
    else ((d.1.sval : ℚ) / (a.samplerate : ℚ), d.2)

/-! ## Pause and resume -/

/-- The function `audio_pause`. -/
def audio_pause (a : ao) (p : priv) (w : World) : priv × World :=
  if p.can_pause ≠ 0 then
    let s := w.call Call.snd_pcm_state
    if s.1.st = PcmState.RUNNING then
      let d := get_delay a p s.2
      let e := d.2.call (Call.snd_pcm_pause 1)
      ({ p with delay_before_pause := d.1 }, e.2)
    else (p, s.2)
  else
    let d := w.call Call.snd_pcm_delay
    let frames : Int := if d.1.ret < 0 ∨ d.1.sval < 0 then 0 else d.1.sval
    let e := d.2.call Call.snd_pcm_drop
    ({ p with prepause_frames := frames,
              delay_before_pause := (frames : ℚ) / (a.samplerate : ℚ) }, e.2)

/-- The loop `while ((err = snd_pcm_resume(p->alsa)) == -EAGAIN) sleep(1);`
of `audio_resume`, run for at most `fuel` iterations.  The first component
is `none` when the fuel ran out before the loop ended. -/
def resume_loop : Nat → World → Option Int × World
  | 0, w => (none, w)
  | fuel + 1, w =>
    let r := w.call Call.snd_pcm_resume
    if r.1.ret = -EAGAIN then
      resume_loop fuel (r.2.call (Call.sleep 1)).2
    else (some r.1.ret, r.2)

/-- The part of `audio_resume` after the suspend check. -/
def audio_resume_tail (p : priv) (w : World) : World :=
  if p.can_pause ≠ 0 then
    let s := w.call Call.snd_pcm_state
    if s.1.st = PcmState.PAUSED then (s.2.call (Call.snd_pcm_pause 0)).2
    else s.2
  else
    let e := w.call Call.snd_pcm_prepare
    if e.1.ret < 0 then e.2
    else if p.prepause_frames ≠ 0 then
      (e.2.call (Call.ao_play_silence p.prepause_frames)).2
    else e.2

/-- The function `audio_resume`.  The result is `(false, _)` when the
suspend loop did not end within `fuel` iterations. -/
def audio_resume (fuel : Nat) (p : priv) (w : World) : Bool × World :=
  let s := w.call Call.snd_pcm_state
  if s.1.st = PcmState.SUSPENDED then
    match resume_loop fuel s.2 with
    | (none, w1) => (false, w1)
    | (some _, w1) => (true, audio_resume_tail p w1)
  else (true, audio_resume_tail p s.2)

/-- The function `reset`. -/
def reset (p : priv) (w : World) : priv × World :=
  let p1 := { p with prepause_frames := 0, delay_before_pause := 0 }
  let d := w.call Call.snd_pcm_drop
  if d.1.ret < 0 then (p1, d.2)
  else (p1, (d.2.call Call.snd_pcm_prepare).2)

/-- The function `drain`. -/
def drain (w : World) : World := (w.call Call.snd_pcm_drain).2

/-! ## Writing: `play` -/

/-- The device write of `play`: `snd_pcm_writen` for a planar format,
`snd_pcm_writei` otherwise. -/
def write_call (env : Env) (a : ao) (samples : Int) : Call :=
  if env.af_fmt_is_planar a.format then Call.snd_pcm_writen samples
  else Call.snd_pcm_writei samples

/-- The `do ... while (res == 0)` loop of `play` followed by its return
statement, run for at most `fuel` iterations.  `none` means the fuel ran
out (in the loop itself or in the suspend loop of `audio_resume`). -/
def play_loop (env : Env) (a : ao) (p : priv) (samples : Int) :
    Nat → World → Option Int × World
  | 0, w => (none, w)
  | fuel + 1, w =>
    let r := w.call (write_call env a samples)
    let res := r.1.ret
    if res = -EINTR ∨ res = -EAGAIN then
      play_loop env a p samples fuel r.2
    else if res = -ESTRPIPE then
      let s := audio_resume fuel p r.2
      if s.1 then (some (if res < 0 then -1 else to_int res), s.2)
      else (none, s.2)
    else if res < 0 then
      let e := r.2.call Call.snd_pcm_prepare
      if e.1.ret < 0 then (some (-1), e.2)
      else play_loop env a p samples fuel e.2
    else if res = 0 then
      play_loop env a p samples fuel r.2
    else (some (if res < 0 then -1 else to_int res), r.2)

/-- The function `play`.  (`outburst = 0` is a division by zero in C.) -/
def play (env : Env) (fuel : Nat) (a : ao) (p : priv) (samples : Int)
    (flags : Nat) (w : World) : Option Int × World :=
  let samples : Int :=
    if flags &&& AOPLAY_FINAL_CHUNK = 0 then
      to_int ((samples.tdiv p.outburst) * p.outburst)
    else samples
  if samples = 0 then (some 0, w)
  else play_loop env a p samples fuel w

/-! ## Format and channel tables -/

/-- The table `mp_to_alsa_format`, with its terminating entry.  The two
24 bit entries depend on the byte order (`MP_SELECT_LE_BE`). -/
def mp_to_alsa_format (env : Env) : List (AfFormat × SndPcmFormat) :=
  [(AfFormat.S8, SndPcmFormat.S8),
   (AfFormat.U8, SndPcmFormat.U8),
   (AfFormat.U16, SndPcmFormat.U16),
   (AfFormat.S16, SndPcmFormat.S16),
   (AfFormat.U32, SndPcmFormat.U32),
   (AfFormat.S32, SndPcmFormat.S32),
   (AfFormat.U24,
     if env.little_endian then SndPcmFormat.U24_3LE else SndPcmFormat.U24_3BE),
   (AfFormat.S24,
     if env.little_endian then SndPcmFormat.S24_3LE else SndPcmFormat.S24_3BE),
   (AfFormat.FLOAT, SndPcmFormat.FLOAT),
   (AfFormat.UNKNOWN, SndPcmFormat.UNKNOWN)]

/-- The loop of `find_alsa_format`: scan up to the terminating entry. -/
def find_alsa_format_loop (af_format : AfFormat) :
    List (AfFormat × SndPcmFormat) → SndPcmFormat
  | [] => SndPcmFormat.UNKNOWN
  | e :: rest =>
    if e.1 = AfFormat.UNKNOWN then SndPcmFormat.UNKNOWN
    else if e.1 = af_format then e.2
    else find_alsa_format_loop af_format rest

/-- The function `find_alsa_format`. -/
def find_alsa_format (env : Env) (af_format : AfFormat) : SndPcmFormat :=
  find_alsa_format_loop (env.af_fmt_from_planar af_format) (mp_to_alsa_format env)

/-- The table `alsa_to_mp_channels`, with its terminating entry. -/
def alsa_to_mp_channels : List (SndChmapPos × MpSpeaker) :=
  [(SndChmapPos.FL, MpSpeaker.FL), (SndChmapPos.FR, MpSpeaker.FR),
   (SndChmapPos.RL, MpSpeaker.BL), (SndChmapPos.RR, MpSpeaker.BR),
   (SndChmapPos.FC, MpSpeaker.FC), (SndChmapPos.LFE, MpSpeaker.LFE),
   (SndChmapPos.SL, MpSpeaker.SL), (SndChmapPos.SR, MpSpeaker.SR),
   (SndChmapPos.RC, MpSpeaker.BC), (SndChmapPos.FLC, MpSpeaker.FLC),
   (SndChmapPos.FRC, MpSpeaker.FRC), (SndChmapPos.FLW, MpSpeaker.WL),
   (SndChmapPos.FRW, MpSpeaker.WR), (SndChmapPos.TC, MpSpeaker.TC),
   (SndChmapPos.TFL, MpSpeaker.TFL), (SndChmapPos.TFR, MpSpeaker.TFR),
   (SndChmapPos.TFC, MpSpeaker.TFC), (SndChmapPos.TRL, MpSpeaker.TBL),
   (SndChmapPos.TRR, MpSpeaker.TBR), (SndChmapPos.TRC, MpSpeaker.TBC),
   (SndChmapPos.MONO, MpSpeaker.FC), (SndChmapPos.LAST, MpSpeaker.COUNT)]

/-- The loop of `find_mp_channel`. -/
def find_mp_channel_loop (alsa_channel : SndChmapPos) :
    List (SndChmapPos × MpSpeaker) → MpSpeaker
  | [] => MpSpeaker.COUNT
  | e :: rest =>
    if e.2 = MpSpeaker.COUNT then MpSpeaker.COUNT
    else if e.1 = alsa_channel then e.2
    else find_mp_channel_loop alsa_channel rest

/-- The function `find_mp_channel`. -/
def find_mp_channel (alsa_channel : SndChmapPos) : MpSpeaker :=
  find_mp_channel_loop alsa_channel alsa_to_mp_channels

/-- The loop of `find_alsa_channel`. -/
def find_alsa_channel_loop (mp_channel : MpSpeaker) :
    List (SndChmapPos × MpSpeaker) → SndChmapPos
  | [] => SndChmapPos.UNKNOWN
  | e :: rest =>
    if e.2 = MpSpeaker.COUNT then SndChmapPos.UNKNOWN
    else if e.2 = mp_channel then e.1
    else find_alsa_channel_loop mp_channel rest

/-- The function `find_alsa_channel`. -/
def find_alsa_channel (mp_channel : MpSpeaker) : SndChmapPos :=
  find_alsa_channel_loop mp_channel alsa_to_mp_channels

/-- The chmap entry `query_chmaps` and `init` build from a map of the
library: its channel count and the translated positions. -/
def chmap_of_alsa (pos : List SndChmapPos) : mp_chmap :=
  { num := pos.length, speaker := pos.map find_mp_channel }

/-- The function `query_chmaps` (both build variants).  The result is the
returned flag and the value left in `*chmap`. -/
def query_chmaps (env : Env) (chmap : mp_chmap) (w : World) :
    (Bool × mp_chmap) × World :=
  if env.HAVE_CHMAP_API then
    let r := w.call Call.snd_pcm_query_chmaps
    match r.1.maps with
    | none => ((false, chmap), r.2)
    | some maps =>
      let chmap_sel : List mp_chmap := maps.filterMap fun m =>
        if (m.length : Int) > env.MP_NUM_CHANNELS then none
        else if env.mp_chmap_is_valid (chmap_of_alsa m) then some (chmap_of_alsa m)
        else none
      (env.ao_chmap_sel_adjust chmap_sel chmap, r.2)
  else ((false, chmap), w)

/-- The table `device_channel_layouts`: device names and their implied
channel map. -/
def device_channel_layouts : List (String × String) :=
  [("default", "fc"), ("default", "fl-fr"), ("rear", "bl-br"),
   ("center_lfe", "fc-lfe"), ("side", "sl-sr"), ("surround40", "fl-fr-bl-br"),
   ("surround50", "fl-fr-bl-br-fc"), ("surround41", "fl-fr-bl-br-lfe"),
   ("surround51", "fl-fr-bl-br-fc-lfe"), ("surround71", "fl-fr-bl-br-fc-lfe-sl-sr")]

/-- The second loop of `select_chmap`: the name of the first entry whose
map equals the chosen one. -/
def select_chmap_loop (env : Env) (chmap : mp_chmap) : List (String × String) → String
  | [] => "default"
  | e :: rest =>
    if env.mp_chmap_equals chmap (env.mp_chmap_from_str e.2) then e.1
    else select_chmap_loop env chmap rest

/-- The function `select_chmap`.  The result is the device name and the
value left in `*chmap`. -/
def select_chmap (env : Env) (chmap : mp_chmap) : String × mp_chmap :=
  let sel : List mp_chmap := device_channel_layouts.map fun e => env.mp_chmap_from_str e.2
  let r := env.ao_chmap_sel_adjust sel chmap
  if r.1 then (select_chmap_loop env r.2 device_channel_layouts, r.2)
  else ("default", r.2)

/-! ## Opening the device -/

/-- The function `map_iec958_srate`, with the values of the
`IEC958_AES3_CON_FS_*` constants of alsa/asoundef.h. -/
def map_iec958_srate (srate : Int) : Int :=
  if srate = 44100 then 0
  else if srate = 48000 then 2
  else if srate = 32000 then 3
  else if srate = 22050 then 4
  else if srate = 24000 then 6
  else if srate = 88200 then 8
  else if srate = 768000 then 9
  else if srate = 96000 then 10
  else if srate = 176400 then 12
  else if srate = 192000 then 14
  else 1

/-- The function `append_params`.  A null parameter string is `none`. -/
def append_params (device : String) (p : Option String) : String :=
  match p with
  | none => device
  | some ps =>
    if ps = "" then device
    else
      match device.toList.dropWhile (fun c => c ≠ ':') with
      | [] => device ++ ":" ++ ps
      | _ :: [] => device ++ ps
      | _ :: c :: _ =>
        if c = '\x7b' ∧ device.toList.getLast? = some '\x7d' then
          String.mk device.toList.dropLast ++ " " ++ ps ++ "\x7d"
        else device ++ "," ++ ps

/-- The parameter string `try_open_device` builds for a passthrough format:
`AES0` is the non-audio bit with no emphasis (2 | 4), `AES1` is original
with PCM coder (128 | 2). -/
def iec958_params (a : ao) : String :=
  "AES0=" ++ toString (6 : Int) ++ ",AES1=" ++ toString (130 : Int)
    ++ ",AES2=0,AES3=" ++ toString (map_iec958_srate a.samplerate)

/-- One `snd_pcm_open(&p->alsa, name, SND_PCM_STREAM_PLAYBACK, mode)`: the
handle is stored when the call does not fail. -/
def pcm_open (p : priv) (name : String) (mode : Int) (w : World) :
    Int × priv × World :=
  let r := w.call (Call.snd_pcm_open name mode)
  (r.1.ret, (if 0 ≤ r.1.ret then { p with alsa := r.1.uval } else p), r.2)

/-- The function `try_open_device`. -/
def try_open_device (env : Env) (a : ao) (p : priv) (device : String)
    (open_mode : Int) (w : World) : Int × priv × World :=
  if env.AF_FORMAT_IS_IEC61937 a.format then
    let r := pcm_open p (append_params device (some (iec958_params a))) open_mode w
    if r.1 = 0 then (0, r.2.1, r.2.2)
    else pcm_open r.2.1 device open_mode r.2.2
  else pcm_open p device open_mode w

/-- The function `uninit`. -/
def uninit (p : priv) (w : World) : World :=
  if p.alsa ≠ 0 then (w.call (Call.snd_pcm_close p.alsa)).2 else w

/-! ## `init` -/

/-- What `init` leaves behind: its return value, the records `ao` and
`priv`, and the world. -/
structure InitResult where
  ret : Int
  a : ao
  p : priv
  w : World

/-- The exit through the label `alsa_error` of `init`: `uninit(ao)`, then
`return -1`. -/
def init_fail (a : ao) (p : priv) (w : World) : InitResult :=
  { ret := -1, a := a, p := p, w := uninit p w }

/-- Software parameters and pause capability (the end of `init`). -/
def init_sw (chunk_size : Nat) (a : ao) (p : priv) (w : World) : InitResult :=
  let r1 := w.call Call.snd_pcm_sw_params_current
  if r1.1.ret < 0 then init_fail a p r1.2 else
  let r2 := r1.2.call Call.snd_pcm_sw_params_get_boundary
  if r2.1.ret < 0 then init_fail a p r2.2 else
  let boundary := r2.1.uval
  let r3 := r2.2.call (Call.snd_pcm_sw_params_set_start_threshold chunk_size)
  if r3.1.ret < 0 then init_fail a p r3.2 else
  let r4 := r3.2.call (Call.snd_pcm_sw_params_set_stop_threshold boundary)
  if r4.1.ret < 0 then init_fail a p r4.2 else
  let r5 := r4.2.call (Call.snd_pcm_sw_params_set_silence_size boundary)
  if r5.1.ret < 0 then init_fail a p r5.2 else
  let r6 := r5.2.call Call.snd_pcm_sw_params
  if r6.1.ret < 0 then init_fail a p r6.2 else
  let r7 := r6.2.call Call.snd_pcm_hw_params_can_pause
  { ret := 0, a := a, p := { p with can_pause := r7.1.ret }, w := r7.2 }

/-- Buffer and period size: both are read as unsigned frame counts and
stored in `int` fields. -/
def init_geometry (a : ao) (p : priv) (w : World) : InitResult :=
  let r1 := w.call Call.snd_pcm_hw_params_get_buffer_size
  if r1.1.ret < 0 then init_fail a p r1.2 else
  let p1 := { p with buffersize := uframes_to_int r1.1.uval }
  let r2 := r1.2.call Call.snd_pcm_hw_params_get_period_size
  if r2.1.ret < 0 then init_fail a p1 r2.2 else
  init_sw r2.1.uval a { p1 with outburst := uframes_to_int r2.1.uval } r2.2

/-- The positions `init` passes to `snd_pcm_set_chmap`. -/
def alsa_chmap_of (dev_chmap : mp_chmap) : List SndChmapPos :=
  (List.range dev_chmap.num.toNat).map fun c =>
    find_alsa_channel (dev_chmap.speaker.getD c MpSpeaker.FL)

/-- The second half of the channel map block of `init`: read back the map
the device reports and adopt it when it is valid, differs from the
negotiated layout and has the same channel count. -/
def init_get_chmap (env : Env) (a : ao) (p : priv) (w : World) : InitResult :=
  let r := w.call Call.snd_pcm_get_chmap
  match r.1.chmap with
  | none => init_geometry a p r.2
  | some pos =>
    let chmap := chmap_of_alsa pos
    if env.mp_chmap_is_valid chmap then
      if env.mp_chmap_equals chmap a.channels then init_geometry a p r.2
      else if chmap.num = a.channels.num then
        init_geometry { a with channels := chmap } p r.2
      else init_geometry a p r.2
    else init_geometry a p r.2

/-- The channel map block of `init` (compiled only with the channel map
interface of the library). -/
def init_chmap (env : Env) (dev_chmap : mp_chmap) (a : ao) (p : priv)
    (w : World) : InitResult :=
  if env.HAVE_CHMAP_API then
    if env.mp_chmap_is_valid dev_chmap then
      let r1 := w.call Call.calloc
      if r1.1.uval = 0 then init_fail a p r1.2 else
      let r2 := r1.2.call (Call.snd_pcm_set_chmap (alsa_chmap_of dev_chmap))
      init_get_chmap env a p r2.2
    else init_get_chmap env a p w
  else init_geometry a p w

/-- Resampling, rate, buffer time, periods, and the installation of the
hardware parameters. -/
def init_rate (env : Env) (dev_chmap : mp_chmap) (a : ao) (p : priv)
    (w : World) : InitResult :=
  let r0 : Int × World :=
    if p.cfg_resample = 0 then
      let r := w.call (Call.snd_pcm_hw_params_set_rate_resample 0)
      (r.1.ret, r.2)
    else (0, w)
  if r0.1 < 0 then init_fail a p r0.2 else
  let r1 := r0.2.call (Call.snd_pcm_hw_params_set_rate_near a.samplerate)
  if r1.1.ret < 0 then init_fail a p r1.2 else
  let a1 := { a with samplerate := r1.1.sval }
  let r2 := r1.2.call (Call.snd_pcm_hw_params_set_buffer_time_near BUFFER_TIME)
  let r3 := r2.2.call (Call.snd_pcm_hw_params_set_periods_near FRAGCOUNT)
  let r4 := r3.2.call Call.snd_pcm_hw_params
  if r4.1.ret < 0 then init_fail a1 p r4.2 else
  init_chmap env dev_chmap a1 p r4.2

/-- What `init` does with the channel count the device granted. -/
def init_granted (env : Env) (dev_chmap : mp_chmap) (num_channels : Int)
    (a : ao) (p : priv) (w : World) : InitResult :=
  if num_channels > env.MP_NUM_CHANNELS then init_fail a p w
  else if num_channels ≠ a.channels.num then
    init_rate env dev_chmap
      { a with channels := env.mp_chmap_from_channels_alsa num_channels } p w
  else init_rate env dev_chmap a p w

/-- The value of `dev_chmap` after channel map resolution: the map chosen
from the maps of the device, or a map with count 0 when there is none. -/
def init_dev_chmap (env : Env) (a : ao) (w : World) : mp_chmap :=
  if (query_chmaps env a.channels w).1.1 then (query_chmaps env a.channels w).1.2
  else { (query_chmaps env a.channels w).1.2 with num := 0 }

/-- The layout chosen by channel map resolution: the map chosen from the
maps of the device, or else the layout implied by the device name. -/
def init_chosen (env : Env) (implied_chmap : mp_chmap) (a : ao) (w : World) : ao :=
  if (query_chmaps env a.channels w).1.1 then
    { a with channels := (query_chmaps env a.channels w).1.2 }
  else { a with channels := implied_chmap }

/-- The answer to `snd_pcm_hw_params_set_channels_near` in `init`, and the
world after it. -/
def init_channels_near (env : Env) (implied_chmap : mp_chmap) (a : ao) (w : World) :
    Resp × World :=
  (query_chmaps env a.channels w).2.call
    (Call.snd_pcm_hw_params_set_channels_near
      (init_chosen env implied_chmap a w).channels.num)

/-- Channel map resolution and channel count negotiation. -/
def init_channels (env : Env) (implied_chmap : mp_chmap) (a : ao) (p : priv)
    (w : World) : InitResult :=
  if (init_channels_near env implied_chmap a w).1.ret < 0 then
    init_fail (init_chosen env implied_chmap a w) p
      (init_channels_near env implied_chmap a w).2
  else
    init_granted env (init_dev_chmap env a w)
      (init_channels_near env implied_chmap a w).1.sval
      (init_chosen env implied_chmap a w) p
      (init_channels_near env implied_chmap a w).2

/-- Access mode selection. -/
def init_access (env : Env) (implied_chmap : mp_chmap) (a : ao) (p : priv)
    (w : World) : InitResult :=
  let access :=
    if env.af_fmt_is_planar a.format then PcmAccess.RW_NONINTERLEAVED
    else PcmAccess.RW_INTERLEAVED
  let r1 := w.call (Call.snd_pcm_hw_params_set_access access)
  if r1.1.ret < 0 ∧ env.af_fmt_is_planar a.format = true then
    let a1 := { a with format := env.af_fmt_from_planar a.format }
    let r2 := r1.2.call (Call.snd_pcm_hw_params_set_access PcmAccess.RW_INTERLEAVED)
    if r2.1.ret < 0 then init_fail a1 p r2.2
    else init_channels env implied_chmap a1 p r2.2
  else if r1.1.ret < 0 then init_fail a p r1.2
  else init_channels env implied_chmap a p r1.2

/-- The native format `init` first chooses for the requested format. -/
def init_native_format (env : Env) (a : ao) : SndPcmFormat :=
  if env.AF_FORMAT_IS_IEC61937 a.format then
    if a.format = AfFormat.S_MP3 then SndPcmFormat.MPEG else SndPcmFormat.S16
  else find_alsa_format env a.format

/-- Format selection. -/
def init_format (env : Env) (implied_chmap : mp_chmap) (a : ao) (p : priv)
    (w : World) : InitResult :=
  let fmt0 := init_native_format env a
  let p1 : priv :=
    if fmt0 = SndPcmFormat.UNKNOWN then { p with alsa_fmt := SndPcmFormat.S16 }
    else { p with alsa_fmt := fmt0 }
  let a1 : ao :=
    if fmt0 = SndPcmFormat.UNKNOWN then { a with format := AfFormat.S16 } else a
  let r1 := w.call (Call.snd_pcm_hw_params_test_format p1.alsa_fmt)
  if r1.1.ret < 0 ∧ env.AF_FORMAT_IS_IEC61937 a1.format = true then
    init_fail a1 p1 r1.2
  else
    let p2 : priv :=
      if r1.1.ret < 0 then { p1 with alsa_fmt := SndPcmFormat.S16 } else p1
    let a2 : ao := if r1.1.ret < 0 then { a1 with format := AfFormat.S16 } else a1
    let r2 := r1.2.call (Call.snd_pcm_hw_params_set_format p2.alsa_fmt)
    if r2.1.ret < 0 then init_fail a2 p2 r2.2
    else init_access env implied_chmap a2 p2 r2.2

/-- The open attempts of `init`: one attempt in the configured mode and,
for a session configured non-blocking, a second attempt in blocking mode
unless the first failed with `-EBUSY`.  The result is the final error
code, the session record and the world. -/
def init_open (env : Env) (a : ao) (p : priv) (device : String) (w : World) :
    Int × priv × World :=
  let r := try_open_device env a p device
    (if p.cfg_block ≠ 0 then 0 else SND_PCM_NONBLOCK) w
  if r.1 < 0 then
    if r.1 ≠ -EBUSY ∧ p.cfg_block = 0 then try_open_device env a r.2.1 device 0 r.2.2
    else r
  else r

/-- The device identifier `init` opens, and the layout left in
`implied_chmap`. -/
def init_device (env : Env) (a : ao) (p : priv) : String × mp_chmap :=
  let d0 : String × mp_chmap :=
    if env.AF_FORMAT_IS_IEC61937 a.format then ("iec958", a.channels)
    else
      let s := select_chmap env a.channels
      if s.1 ≠ "default" then ("plug:" ++ s.1, s.2) else (s.1, s.2)
  let d1 : String := match a.device with
    | some d => d
    | none => d0.1
  let d2 : String := match p.cfg_device with
    | some d => if d = "" then d1 else d
    | none => d1
  (d2, d0.2)

/-- The record `ao` after the first statement of `init`: unless the
session is configured non-interleaved, the format is made interleaved. -/
def init_requested (env : Env) (a : ao) (p : priv) : ao :=
  if p.cfg_ni = 0 then { a with format := env.af_fmt_from_planar a.format } else a

/-- The outcome of the open attempts of `init`. -/
def init_opened (env : Env) (a : ao) (p : priv) (w : World) : Int × priv × World :=
  init_open env (init_requested env a p) p
    (init_device env (init_requested env a p) p).1 w

/-- The first open attempt of `init`: in blocking mode when the session is
configured so, otherwise non-blocking. -/
def init_first_attempt (env : Env) (a : ao) (p : priv) (w : World) :
    Int × priv × World :=
  try_open_device env (init_requested env a p) p
    (init_device env (init_requested env a p) p).1
    (if p.cfg_block ≠ 0 then 0 else SND_PCM_NONBLOCK) w

/-- After a successful open: the switch to blocking mode, whose error is
only logged, and `snd_pcm_hw_params_any`. -/
def init_params_any (env : Env) (a : ao) (p : priv) (w : World) : Resp × World :=
  ((init_opened env a p w).2.2.call (Call.snd_pcm_nonblock 0)).2.call
    Call.snd_pcm_hw_params_any

/-- The function `init`. -/
def init (env : Env) (a : ao) (p : priv) (w : World) : InitResult :=
  if (init_opened env a p w).1 < 0 then
    init_fail (init_requested env a p) (init_opened env a p w).2.1
      (init_opened env a p w).2.2
  else if (init_params_any env a p w).1.ret < 0 then
    init_fail (init_requested env a p) (init_opened env a p w).2.1
      (init_params_any env a p w).2
  else
    init_format env (init_device env (init_requested env a p) p).2
      (init_requested env a p) (init_opened env a p w).2.1
      (init_params_any env a p w).2

/-! ## Mixer control: `control` -/

/-- The commands of `control` the driver handles; every other command of
`enum aocontrol` is `other`. -/
inductive aocontrol
  | GET_VOLUME | SET_VOLUME | GET_MUTE | SET_MUTE
  | other (code : Nat)
  deriving DecidableEq, Repr

/-- The result codes of `control`, declared outside this file. -/
structure ControlCodes where
  CONTROL_OK : Int
  CONTROL_FALSE : Int
  CONTROL_UNKNOWN : Int
  CONTROL_ERROR : Int

/-- The record `ao_control_vol_t`: volume per channel on a scale 0 to 100. -/
structure ao_control_vol_t where
  left : ℚ
  right : ℚ

/-- What `control` leaves behind: its return value, the volume and the mute
flag its argument points to, and the world. -/
structure ControlResult where
  ret : Int
  vol : ao_control_vol_t
  mute : Bool
  w : World

/-- Conversion of a floating point value to `long`: truncation toward zero. -/
def float_to_long (q : ℚ) : Int := if 0 ≤ q then ⌊q⌋ else ⌈q⌉

/-- The exit through the label `alsa_error` of `control`: close the mixer
when it was opened, then `return CONTROL_ERROR`. -/
def control_error (cc : ControlCodes) (handle : Nat) (vol : ao_control_vol_t)
    (mute : Bool) (w : World) : ControlResult :=
  { ret := cc.CONTROL_ERROR, vol := vol, mute := mute,
    w := if handle ≠ 0 then (w.call (Call.snd_mixer_close handle)).2 else w }

/-- The regular exit of `control`: close the mixer, `return CONTROL_OK`. -/
def control_ok (cc : ControlCodes) (handle : Nat) (vol : ao_control_vol_t)
    (mute : Bool) (w : World) : ControlResult :=
  { ret := cc.CONTROL_OK, vol := vol, mute := mute,
    w := (w.call (Call.snd_mixer_close handle)).2 }

/-- The inner `switch` of `control`, on a control element that was found,
with the volume range `pmin`, `pmax` of the element. -/
def control_elem (cc : ControlCodes) (cmd : aocontrol) (handle : Nat)
    (pmin pmax : Int) (vol : ao_control_vol_t) (mute : Bool) (w : World) :
    ControlResult :=
  let f_multi : ℚ := 100 / ((pmax - pmin : Int) : ℚ)
  match cmd with
  | aocontrol.SET_VOLUME =>
    let r1 := w.call (Call.snd_mixer_selem_set_playback_volume MixerChannel.FRONT_LEFT
      (float_to_long (vol.left / f_multi + (pmin : ℚ) + 1 / 2)))
    if r1.1.ret < 0 then control_error cc handle vol mute r1.2 else
    let r2 := r1.2.call (Call.snd_mixer_selem_set_playback_volume MixerChannel.FRONT_RIGHT
      (float_to_long (vol.right / f_multi + (pmin : ℚ) + 1 / 2)))
    if r2.1.ret < 0 then control_error cc handle vol mute r2.2 else
    control_ok cc handle vol mute r2.2
  | aocontrol.GET_VOLUME =>
    let r1 := w.call (Call.snd_mixer_selem_get_playback_volume MixerChannel.FRONT_LEFT)
    let r2 := r1.2.call (Call.snd_mixer_selem_get_playback_volume MixerChannel.FRONT_RIGHT)
    control_ok cc handle
      { left := ((r1.1.sval - pmin : Int) : ℚ) * f_multi,
        right := ((r2.1.sval - pmin : Int) : ℚ) * f_multi } mute r2.2
  | aocontrol.SET_MUTE =>
    let r1 := w.call Call.snd_mixer_selem_has_playback_switch
    if r1.1.ret = 0 then control_error cc handle vol mute r1.2 else
    let r2 := r1.2.call Call.snd_mixer_selem_has_playback_switch_joined
    let w3 : World :=
      if r2.1.ret = 0 then
        (r2.2.call (Call.snd_mixer_selem_set_playback_switch MixerChannel.FRONT_RIGHT
          (if mute then 0 else 1))).2
      else r2.2
    let r4 := w3.call (Call.snd_mixer_selem_set_playback_switch MixerChannel.FRONT_LEFT
      (if mute then 0 else 1))
    control_ok cc handle vol mute r4.2
  | aocontrol.GET_MUTE =>
    let r1 := w.call Call.snd_mixer_selem_has_playback_switch
    if r1.1.ret = 0 then control_error cc handle vol mute r1.2 else
    let r2 := r1.2.call (Call.snd_mixer_selem_get_playback_switch MixerChannel.FRONT_LEFT)
    let tmp1 : Int := if r2.1.ret < 0 then 1 else r2.1.sval
    let mute1 : Bool := decide (tmp1 = 0)
    let r3 := r2.2.call Call.snd_mixer_selem_has_playback_switch_joined
    if r3.1.ret = 0 then
      let r4 := r3.2.call (Call.snd_mixer_selem_get_playback_switch MixerChannel.FRONT_RIGHT)
      let tmp2 : Int := if r4.1.ret < 0 then tmp1 else r4.1.sval
      control_ok cc handle vol (mute1 && decide (tmp2 = 0)) r4.2
    else control_ok cc handle vol mute1 r3.2
  | aocontrol.other _ => control_ok cc handle vol mute w

/-- The function `control`.  The volume and the mute flag stand for what
`arg` points to. -/
def control (env : Env) (cc : ControlCodes) (a : ao) (p : priv) (cmd : aocontrol)
    (vol : ao_control_vol_t) (mute : Bool) (w : World) : ControlResult :=
  match cmd with
  | aocontrol.other _ => { ret := cc.CONTROL_UNKNOWN, vol := vol, mute := mute, w := w }
  | _ =>
    if env.AF_FORMAT_IS_SPECIAL a.format then
      { ret := cc.CONTROL_FALSE, vol := vol, mute := mute, w := w }
    else
      let r1 := w.call (Call.snd_mixer_open 0)
      let handle : Nat := if 0 ≤ r1.1.ret then r1.1.uval else 0
      if r1.1.ret < 0 then control_error cc handle vol mute r1.2 else
      let r2 := r1.2.call (Call.snd_mixer_attach p.cfg_mixer_device)
      if r2.1.ret < 0 then control_error cc handle vol mute r2.2 else
      let r3 := r2.2.call Call.snd_mixer_selem_register
      if r3.1.ret < 0 then control_error cc handle vol mute r3.2 else
      let r4 := r3.2.call Call.snd_mixer_load
      if r4.1.ret < 0 then control_error cc handle vol mute r4.2 else
      let r5 := r4.2.call (Call.snd_mixer_find_selem p.cfg_mixer_name p.cfg_mixer_index)
      if r5.1.uval = 0 then control_error cc handle vol mute r5.2 else
      let r6 := r5.2.call Call.snd_mixer_selem_get_playback_volume_range
      control_elem cc cmd handle r6.1.sval r6.1.sval2 vol mute r6.2

/-- The answers to the five mixer calls `control` starts with, in order:
open, attach, register, load, find; each with the world after it. -/
def control_open (w : World) : Resp × World := w.call (Call.snd_mixer_open 0)

/-- See `control_open`. -/
def control_attach (p : priv) (w : World) : Resp × World :=
  (control_open w).2.call (Call.snd_mixer_attach p.cfg_mixer_device)

/-- See `control_open`. -/
def control_register (p : priv) (w : World) : Resp × World :=
  (control_attach p w).2.call Call.snd_mixer_selem_register

/-- See `control_open`. -/
def control_load (p : priv) (w : World) : Resp × World :=
  (control_register p w).2.call Call.snd_mixer_load

/-- See `control_open`. -/
def control_find (p : priv) (w : World) : Resp × World :=
  (control_load p w).2.call (Call.snd_mixer_find_selem p.cfg_mixer_name p.cfg_mixer_index)

/-- Sample values for the result codes. -/
def sampleCodes : ControlCodes :=
  { CONTROL_OK := 1, CONTROL_FALSE := 0, CONTROL_UNKNOWN := -1, CONTROL_ERROR := -2 }

/-- A mixer that opens and loads but has no simple control of any name. -/
def dev_mixer_no_control : Device := fun _ c =>
  match c with
  | Call.snd_mixer_open _ => { ret := 0, uval := 7 }
  | Call.snd_mixer_find_selem _ _ => { uval := 0 }
  | _ => { ret := 0 }

/-- A system on which the mixer cannot be opened. -/
def dev_mixer_open_fails : Device := fun _ c =>
  match c with
  | Call.snd_mixer_open _ => { ret := - ENXIO }
  | _ => { ret := 0 }

/-- A mixer that opens but cannot be attached to the mixer device. -/
def dev_mixer_attach_fails : Device := fun _ c =>
  match c with
  | Call.snd_mixer_open _ => { ret := 0, uval := 7 }
  | Call.snd_mixer_attach _ => { ret := - ENXIO }
  | _ => { ret := 0 }

/-- A volume of 50 on both channels. -/
def vol_50 : ao_control_vol_t := { left := 50, right := 50 }

/-! ## Concrete sessions and devices used in the evaluations below -/

/-- A session with a buffer of 1024 frames and a period of 64 frames. -/
def priv_1024_64 : priv := { buffersize := 1024, outburst := 64 }

/-- A device whose status query succeeds and reports 2^32 available
frames (a long underrun: the stop threshold is the boundary, so the
availability keeps growing while nothing is written). -/
def dev_avail_2_32 : Device := scripted [{ ret := 0, uval := 4294967296 }]

/-- A device whose status query succeeds and reports 200 available frames. -/
def dev_avail_200 : Device := scripted [{ ret := 0, uval := 200 }]

/-- Split a string at every `-`; the first argument collects the
characters of the current piece in reverse. -/
def split_dash : List Char → List Char → List (List Char)
  | cur, [] => [cur.reverse]
  | cur, c :: cs =>
    if c = '-' then cur.reverse :: split_dash [] cs else split_dash (c :: cur) cs

/-- The speaker a name of the table `device_channel_layouts` stands for. -/
def speaker_of_name (t : List Char) : Option MpSpeaker :=
  if t = ['f', 'l'] then some MpSpeaker.FL
  else if t = ['f', 'r'] then some MpSpeaker.FR
  else if t = ['f', 'c'] then some MpSpeaker.FC
  else if t = ['l', 'f', 'e'] then some MpSpeaker.LFE
  else if t = ['b', 'l'] then some MpSpeaker.BL
  else if t = ['b', 'r'] then some MpSpeaker.BR
  else if t = ['s', 'l'] then some MpSpeaker.SL
  else if t = ['s', 'r'] then some MpSpeaker.SR
  else none

/-- A sample instantiation of the declarations of the player core:
`other 1` is planar float, `other 2` planar signed 16 bit, `other 3` a
passthrough (IEC61937) format next to `S_MP3`; a channel map is valid when
its count is positive and matches its speakers; the layout policy accepts a
request that is one of the offered maps up to order, and otherwise falls
back to the first offered map with the same channel count. -/
def sampleEnv : Env where
  af_fmt_from_planar := fun f =>
    if f = AfFormat.other 1 then AfFormat.FLOAT
    else if f = AfFormat.other 2 then AfFormat.S16 else f
  af_fmt_is_planar := fun f => f = AfFormat.other 1 || f = AfFormat.other 2
  AF_FORMAT_IS_IEC61937 := fun f => f = AfFormat.S_MP3 || f = AfFormat.other 3
  AF_FORMAT_IS_SPECIAL := fun f => f = AfFormat.S_MP3 || f = AfFormat.other 3
  little_endian := true
  HAVE_CHMAP_API := true
  MP_NUM_CHANNELS := 8
  mp_chmap_is_valid := fun m =>
    0 < m.num && m.num = m.speaker.length && !(m.speaker.contains MpSpeaker.COUNT)
  mp_chmap_equals := fun a b => a = b
  mp_chmap_from_str := fun str =>
    let sp := (split_dash [] str.toList).filterMap speaker_of_name
    { num := sp.length, speaker := sp }
  mp_chmap_from_channels_alsa := fun n =>
    if n = 1 then { num := 1, speaker := [MpSpeaker.FC] }
    else if n = 2 then { num := 2, speaker := [MpSpeaker.FL, MpSpeaker.FR] }
    else { num := n, speaker := (List.range n.toNat).map MpSpeaker.other }
  ao_chmap_sel_adjust := fun sel m =>
    match sel.find? (fun c => c.num = m.num && c.speaker.all m.speaker.contains) with
    | some c => (true, c)
    | none =>
      match sel.find? (fun c => c.num = m.num) with
      | some c => (true, c)
      | none => (false, m)

/-- A stereo stream of signed 16 bit samples at 48000 Hz. -/
def ao_s16_stereo : ao :=
  { format := AfFormat.S16, samplerate := 48000,
    channels := { num := 2, speaker := [MpSpeaker.FL, MpSpeaker.FR] } }

/-- A device whose first write is interrupted, whose second write would
block, and whose third write consumes 128 frames. -/
def dev_retry_then_128 : Device :=
  scripted [{ ret := -EINTR }, { ret := -EAGAIN }, { ret := 128 }]

/-- A session on a device with native pause support. -/
def priv_can_pause : priv := { buffersize := 1024, outburst := 64, can_pause := 1 }

/-- A device that answers the first write with "stream suspended", then
reports the suspended state, resumes at once, reports the running state,
and would consume 128 frames on a further write. -/
def dev_suspended_once : Device :=
  scripted [{ ret := -ESTRPIPE }, { st := PcmState.SUSPENDED }, { ret := 0 },
    { st := PcmState.RUNNING }, { ret := 128 }]

/-- A session without native pause support (`can_pause = 0`). -/
def priv_no_pause : priv := { buffersize := 1024, outburst := 64, can_pause := 0 }

/-- A device without native pause: at pause time it reports 48000 frames
in flight and drops them; afterwards its state is `SETUP` and the live
delay query reports 0 frames. -/
def dev_emulated_pause : Device :=
  scripted [{ ret := 0, sval := 48000 }, { ret := 0 },
    { st := PcmState.SETUP }, { ret := 0, sval := 0 }]

/-- A device with native pause: it is running with 24000 frames in flight,
accepts the pause, and then reports the paused state. -/
def dev_native_pause : Device :=
  scripted [{ st := PcmState.RUNNING }, { st := PcmState.RUNNING },
    { ret := 0, sval := 24000 }, { ret := 0 }, { st := PcmState.PAUSED }]

/-- A device without native pause: at pause time it reports 300 frames in
flight and drops them; at resume its state is `SETUP`, the re-prepare
succeeds, the silence request returns, and a later write of 128 frames
consumes all of them. -/
def dev_pause_resume_write : Device :=
  scripted [{ ret := 0, sval := 300 }, { ret := 0 }, { st := PcmState.SETUP },
    { ret := 0 }, { ret := 300 }, { ret := 128 }]

/-- The frame counts of the `ao_play_silence` requests in a trace. -/
def silence_calls (l : List Event) : List Int :=
  l.filterMap fun e =>
    match e.1 with
    | Call.ao_play_silence n => some n
    | _ => none

/-- Whether a trace contains a `snd_pcm_prepare` that succeeded. -/
def prepare_ok (l : List Event) : Bool :=
  l.any fun e => decide (e.1 = Call.snd_pcm_prepare) && decide (0 ≤ e.2.ret)

/-- Modelled from the spec: `ao_play_silence` (audio/out/ao.c, outside this
file) "re-synthesizes that many frames of silence into the stream", so a
request for `n > 0` frames accounts for `n` frames written.  A device write
accounts for the frames it reports as consumed; no other call writes. -/
def frames_written_by (e : Event) : Int :=
  match e.1 with
  | Call.ao_play_silence n => max n 0
  | Call.snd_pcm_writei _ => max e.2.ret 0
  | Call.snd_pcm_writen _ => max e.2.ret 0
  | _ => 0

/-- The frames written to the device by the events of a trace. -/
def frames_written (l : List Event) : Int := (l.map frames_written_by).sum

/-- An event that is not a re-prepare, a silence request or a device write. -/
def quiet (e : Event) : Prop :=
  e.1 ≠ Call.snd_pcm_prepare ∧ (∀ n, e.1 ≠ Call.ao_play_silence n) ∧
  (∀ n, e.1 ≠ Call.snd_pcm_writei n) ∧ (∀ n, e.1 ≠ Call.snd_pcm_writen n)

/-- A device that supports only signed 16 bit interleaved stereo at
48000 Hz: every other format and access mode is rejected, and the channel
count and the rate are granted as 2 and 48000 whatever is asked.  It
reports no channel maps, a buffer of 12000 frames in periods of 750, and
native pause support. -/
def dev_s16_stereo_48k : Device := fun _ c =>
  match c with
  | Call.snd_pcm_open _ _ => { ret := 0, uval := 1 }
  | Call.snd_pcm_hw_params_test_format f =>
    if f = SndPcmFormat.S16 then { ret := 0 } else { ret := -EINVAL }
  | Call.snd_pcm_hw_params_set_format f =>
    if f = SndPcmFormat.S16 then { ret := 0 } else { ret := -EINVAL }
  | Call.snd_pcm_hw_params_set_access x =>
    if x = PcmAccess.RW_INTERLEAVED then { ret := 0 } else { ret := -EINVAL }
  | Call.snd_pcm_hw_params_set_channels_near _ => { ret := 0, sval := 2 }
  | Call.snd_pcm_hw_params_set_rate_near _ => { ret := 0, sval := 48000 }
  | Call.snd_pcm_hw_params_get_buffer_size => { ret := 0, uval := 12000 }
  | Call.snd_pcm_hw_params_get_period_size => { ret := 0, uval := 750 }
  | Call.snd_pcm_sw_params_get_boundary => { ret := 0, uval := 1572864000 }
  | Call.snd_pcm_hw_params_can_pause => { ret := 1 }
  | _ => { ret := 0 }

/-- A stereo stream of 32 bit float samples at 48000 Hz. -/
def ao_float_stereo : ao :=
  { format := AfFormat.FLOAT, samplerate := 48000,
    channels := { num := 2, speaker := [MpSpeaker.FL, MpSpeaker.FR] } }

/-- A 5.1 stream (6 channels) of 32 bit float samples at 48000 Hz. -/
def ao_float_51 : ao :=
  { format := AfFormat.FLOAT, samplerate := 48000,
    channels := { num := 6, speaker := [MpSpeaker.FL, MpSpeaker.FR, MpSpeaker.BL,
      MpSpeaker.BR, MpSpeaker.FC, MpSpeaker.LFE] } }

/-- A passthrough stream (the format `other 3` of the sample declarations). -/
def ao_passthrough : ao :=
  { format := AfFormat.other 3, samplerate := 48000,
    channels := { num := 2, speaker := [MpSpeaker.FL, MpSpeaker.FR] } }

/-- A device that rejects every format in the format test. -/
def dev_no_format : Device := fun _ c =>
  match c with
  | Call.snd_pcm_open _ _ => { ret := 0, uval := 1 }
  | Call.snd_pcm_hw_params_test_format _ => { ret := -EINVAL }
  | _ => { ret := 0 }

/-- A stereo request that carries the override string "hw:0". -/
def ao_override : ao := { ao_s16_stereo with device := some "hw:0" }

/-- A session configured with the device option "hw:1". -/
def priv_cfg_device : priv := { cfg_device := some "hw:1" }

/-- A session configured for a non-blocking open. -/
def priv_nonblock : priv := { cfg_block := 0 }

/-- The 16 bit stereo device while another client holds it: a non-blocking
open fails with `-EBUSY`, a blocking open would succeed. -/
def dev_busy : Device := fun h c =>
  match c with
  | Call.snd_pcm_open _ mode =>
    if mode = SND_PCM_NONBLOCK then { ret := -EBUSY } else { ret := 0, uval := 1 }
  | _ => dev_s16_stereo_48k h c

/-- The 16 bit stereo device behind a plugin that cannot be opened
non-blocking (`-EINVAL`) and opens in blocking mode. -/
def dev_blocking_only : Device := fun h c =>
  match c with
  | Call.snd_pcm_open _ mode =>
    if mode = SND_PCM_NONBLOCK then { ret := -EINVAL } else { ret := 0, uval := 1 }
  | _ => dev_s16_stereo_48k h c

/-- An open session: the handle is set. -/
def priv_open : priv := { alsa := 1, buffersize := 12000, outburst := 750 }

/-- A device whose `snd_pcm_close` reports an error. -/
def dev_close_error : Device := fun _ c =>
  match c with
  | Call.snd_pcm_close _ => { ret := -EINVAL }
  | _ => { ret := 0 }

/-- An event is not a device write, or it is a write of `n` frames. -/
def writes_exactly (n : Int) (e : Event) : Prop :=
  ∀ m, e.1 = Call.snd_pcm_writei m ∨ e.1 = Call.snd_pcm_writen m → m = n

/-- The world `w2` continues `w1`: same device, and the history of `w2`
is the history of `w1` followed by events that all satisfy `P`. -/
def Extends (P : Event → Prop) (w1 w2 : World) : Prop :=
  w2.dev = w1.dev ∧ ∃ l, w2.log = w1.log ++ l ∧ ∀ e ∈ l, P e

/-! ## Write sequences -/

/-- The device answers the successive writes `c` of a `play` call, from the
world `w` on, with the results `rs` and then with `n`; after each result
that is a write error (neither `-EINTR`, `-EAGAIN` nor zero) the
`snd_pcm_prepare` that `play` issues succeeds. -/
def answers_writes (c : Call) : List Int → Int → World → Prop
  | [], n, w => (w.peek c).ret = n
  | r :: rs, n, w =>
    (w.peek c).ret = r ∧
    (if r = -EINTR ∨ r = -EAGAIN ∨ r = 0 then answers_writes c rs n (w.call c).2
     else
      0 ≤ ((w.call c).2.peek Call.snd_pcm_prepare).ret ∧
      answers_writes c rs n ((w.call c).2.call Call.snd_pcm_prepare).2)

/-- A device on which the first write would block, is interrupted on the
second, fails with `-EINVAL` on the third (the re-prepare succeeds), and
consumes 64 frames on the fourth. -/
def dev_errors_then_64 : Device :=
  scripted [{ ret := -EAGAIN }, { ret := -EINTR }, { ret := -EINVAL }, { ret := 0 },
    { ret := 64 }]

/-- A device on which the first write would block and the second returns
"stream suspended"; it then reports the running state. -/
def dev_block_then_suspended : Device :=
  scripted [{ ret := -EAGAIN }, { ret := -ESTRPIPE }, { st := PcmState.RUNNING },
    { st := PcmState.RUNNING }, { ret := 64 }]

/-- A device whose write fails with `-EINVAL` and whose re-prepare fails. -/
def dev_prepare_fails : Device :=
  scripted [{ ret := -EINVAL }, { ret := -EINVAL }]

/-! ## Sequences of driver operations -/

/-- An operation the player core performs on an open session.  `play` and
`audio_resume` carry the fuel of their loops. -/
inductive Op
  | play (fuel : Nat) (samples : Int) (flags : Nat)
  | audio_pause
  | audio_resume (fuel : Nat)
  | reset
  | get_delay

/-- One operation on a session (the record `priv` and the world). -/
def step (env : Env) (a : ao) (s : priv × World) : Op → priv × World
  | Op.play fuel samples flags => (s.1, (play env fuel a s.1 samples flags s.2).2)
  | Op.audio_pause => audio_pause a s.1 s.2
  | Op.audio_resume fuel => (s.1, (audio_resume fuel s.1 s.2).2)
  | Op.reset => reset s.1 s.2
  | Op.get_delay => (s.1, (get_delay a s.1 s.2).2)

/-- A sequence of operations on a session. -/
def run (env : Env) (a : ao) (s : priv × World) (ops : List Op) : priv × World :=
  ops.foldl (step env a) s

/-- A running device in underrun: the live delay query reports -100
frames. -/
def dev_underrun : Device := fun _ c =>
  match c with
  | Call.snd_pcm_state => { st := PcmState.RUNNING }
  | Call.snd_pcm_delay => { ret := 0, sval := -100 }
  | _ => dev_s16_stereo_48k [] c

/-! ## The layout policy of the player core, from the specification -/

/-- Two channel maps have the same channel count and the same set of
speakers, in whatever order. -/
def same_speakers (c m : mp_chmap) : Bool :=
  decide (c.num = m.num) && c.speaker.all (fun s => m.speaker.contains s)
    && m.speaker.all (fun s => c.speaker.contains s)

/-- Modelled from the spec: `ao_chmap_sel_adjust` (audio/out/ao.c and
audio/chmap_sel.c, outside this file) is the "engine-side layout-selection
policy" of an "order-independent set matching": among the candidate maps it
picks the first one that has the speakers of the requested layout, in
whatever order, stores it in the requested layout and reports success; when
no candidate matches it reports failure and leaves the layout as it is. -/
def spec_chmap_sel_adjust (sel : List mp_chmap) (m : mp_chmap) : Bool × mp_chmap :=
  match sel.find? (fun c => same_speakers c m) with
  | some c => (true, c)
  | none => (false, m)

/-- The declarations of the player core with the layout policy of the
specification; `mp_chmap_from_str` reads the speaker names of the table and
`mp_chmap_equals` is equality of channel maps, as in the sample
declarations. -/
def specEnv : Env := { sampleEnv with ao_chmap_sel_adjust := spec_chmap_sel_adjust }

/-- The layout front-left, front-right. -/
def chmap_fl_fr : mp_chmap := { num := 2, speaker := [MpSpeaker.FL, MpSpeaker.FR] }

/-- The layout front-right, front-left. -/
def chmap_fr_fl : mp_chmap := { num := 2, speaker := [MpSpeaker.FR, MpSpeaker.FL] }

/-- A layout that is in no entry of the table: top-center alone. -/
def chmap_tc : mp_chmap := { num := 1, speaker := [MpSpeaker.TC] }

/-- A session without native pause that remembers 300 in-flight frames of
an earlier pause. -/
def priv_paused_300 : priv :=
  { buffersize := 1024, outburst := 64, can_pause := 0, prepause_frames := 300,
    delay_before_pause := 300 / 48000 }

/-- A device on which `snd_pcm_drop` fails with `-EINVAL`. -/
def dev_drop_fails : Device := fun _ c =>
  match c with
  | Call.snd_pcm_drop => { ret := -EINVAL }
  | Call.snd_pcm_state => { st := PcmState.SETUP }
  | _ => { ret := 0 }

/-! # Theorems -/

/-! ## Histories -/

theorem Extends.refl (P : Event → Prop) (w : World) : Extends P w w :=
  ⟨rfl, [], by simp, by simp⟩

theorem Extends.trans {P : Event → Prop} {w1 w2 w3 : World}
    (h12 : Extends P w1 w2) (h23 : Extends P w2 w3) : Extends P w1 w3 := by
  obtain ⟨d12, l12, e12, p12⟩ := h12
  obtain ⟨d23, l23, e23, p23⟩ := h23
  refine ⟨d23.trans d12, l12 ++ l23, by rw [e23, e12, List.append_assoc], ?_⟩
  intro e he
  rcases List.mem_append.mp he with h | h
  · exact p12 e h
  · exact p23 e h

theorem Extends.call {P : Event → Prop} (w : World) (c : Call)
    (h : P (c, w.peek c)) : Extends P w (w.call c).2 :=
  ⟨rfl, [(c, w.peek c)], rfl, by simpa using h⟩

theorem Extends.mono {P Q : Event → Prop} {w1 w2 : World}
    (h : Extends P w1 w2) (hpq : ∀ e, P e → Q e) : Extends Q w1 w2 := by
  obtain ⟨d, l, e, pl⟩ := h
  exact ⟨d, l, e, fun x hx => hpq x (pl x hx)⟩

/-! ## Machine integers -/

theorem to_unsigned_of_range (x : Int) (h0 : 0 ≤ x) (h1 : x < 2147483648) :
    to_unsigned x = x.toNat := by
  unfold to_unsigned
  rw [Int.emod_eq_of_lt h0 (by omega)]

theorem to_int_of_range (x : Int) (h0 : 0 ≤ x) (h1 : x < 2147483648) :
    to_int x = x := by
  unfold to_int
  omega

/-! ## `get_space` -/

/-- The value `get_space` returns when the status query succeeds, for a
period and a buffer size in the range of a non-negative `int`: the
availability as read into an `unsigned`, clamped and rounded down. -/
theorem get_space_value (p : priv) (w : World)
    (hob : 0 < p.outburst) (hob2 : p.outburst < 2147483648)
    (hbs : 0 ≤ p.buffersize) (hbs2 : p.buffersize < 2147483648)
    (hok : 0 ≤ (w.peek Call.snd_pcm_status).ret) :
    (get_space p w).1 =
      min (((w.peek Call.snd_pcm_status).uval % 4294967296 : Nat) : Int)
        p.buffersize / p.outburst * p.outburst := by
  obtain ⟨b, hb0⟩ := Int.eq_ofNat_of_zero_le hbs
  obtain ⟨o, ho⟩ := Int.eq_ofNat_of_zero_le hob.le
  rw [hb0] at hbs hbs2
  rw [ho] at hob hob2
  have hb : to_unsigned (b : Int) = b := by
    rw [to_unsigned_of_range _ hbs hbs2]; simp
  have ho2 : to_unsigned (o : Int) = o := by
    rw [to_unsigned_of_range _ hob.le hob2]; simp
  have hopos : 0 < o := by omega
  simp only [get_space, World.call, World.peek] at hok ⊢
  rw [if_neg (by omega)]
  simp only [ho, hb0, hb, ho2]
  set av : Nat := (w.dev w.log Call.snd_pcm_status).uval % 4294967296 with hav
  have key : ∀ s : Nat, s ≤ b →
      to_int ((s / o * o % 4294967296 : Nat) : Int) = ((s / o * o : Nat) : Int) := by
    intro s hs
    have h1 : s / o * o ≤ s := Nat.div_mul_le_self s o
    have h2 : s / o * o < 4294967296 := by omega
    rw [Nat.mod_eq_of_lt h2]
    apply to_int_of_range <;> omega
  by_cases hc : av > b
  · rw [if_pos hc, key b le_rfl, min_eq_right (by omega)]
    push_cast; rfl
  · rw [if_neg hc, key av (by omega), min_eq_left (by omega)]
    push_cast; rfl

/-- For a period and a buffer size in the range of a non-negative `int`,
and whatever the device answers, `get_space` returns a non-negative
multiple of the period that does not exceed the buffer size, and `0` when
the status query fails. -/
theorem get_space_aligned (p : priv) (w : World)
    (hob : 0 < p.outburst) (hob2 : p.outburst < 2147483648)
    (hbs : 0 ≤ p.buffersize) (hbs2 : p.buffersize < 2147483648) :
    0 ≤ (get_space p w).1 ∧ p.outburst ∣ (get_space p w).1 ∧
      (get_space p w).1 ≤ p.buffersize ∧
      ((w.peek Call.snd_pcm_status).ret < 0 → (get_space p w).1 = 0) := by
  by_cases hok : 0 ≤ (w.peek Call.snd_pcm_status).ret
  · rw [get_space_value p w hob hob2 hbs hbs2 hok]
    set m : Int := min (((w.peek Call.snd_pcm_status).uval % 4294967296 : Nat) : Int)
      p.buffersize with hm
    have hm0 : 0 ≤ m := le_min (by positivity) hbs
    have hmb : m ≤ p.buffersize := min_le_right _ _
    refine ⟨?_, Dvd.intro_left _ rfl, ?_, fun h => absurd hok (not_le.mpr h)⟩
    · exact mul_nonneg (Int.ediv_nonneg hm0 hob.le) hob.le
    · exact le_trans (Int.ediv_mul_le m hob.ne') hmb
  · have h0 : (get_space p w).1 = 0 := by
      simp only [World.peek] at hok
      simp only [get_space, World.call]
      rw [if_pos (by omega)]
    rw [h0]
    exact ⟨le_rfl, dvd_zero _, hbs, fun _ => rfl⟩

/-- C1, the failing input: with a buffer of 1024 frames and a period of
64 frames, a successful status query reporting 2^32 available frames makes
`get_space` return 0, whereas the largest multiple of 64 that is at most
min(2^32, 1024) is 1024.  The availability is an `unsigned long` of the
library and the driver stores it in an `unsigned`, losing the high bits
before the clamp to the buffer size. -/
theorem get_space_truncates_avail :
    (World.peek ⟨dev_avail_2_32, []⟩ Call.snd_pcm_status).ret = 0 ∧
    (World.peek ⟨dev_avail_2_32, []⟩ Call.snd_pcm_status).uval = 4294967296 ∧
    (get_space priv_1024_64 ⟨dev_avail_2_32, []⟩).1 = 0 ∧
    min (4294967296 : Int) priv_1024_64.buffersize
      / priv_1024_64.outburst * priv_1024_64.outburst = 1024 := by
  decide

/-- On the same session a report of 200 available frames yields 192. -/
theorem get_space_example_200 :
    (get_space priv_1024_64 ⟨dev_avail_200, []⟩).1 = 192 := by
  decide

/-! ## `play`: the frame counts passed to the device -/

theorem resume_loop_writes (n : Int) (fuel : Nat) (w : World) :
    Extends (writes_exactly n) w (resume_loop fuel w).2 := by
  induction fuel generalizing w with
  | zero => exact Extends.refl _ _
  | succ k ih =>
    have h1 : Extends (writes_exactly n) w (w.call Call.snd_pcm_resume).2 :=
      Extends.call _ _ (by intro m h; rcases h with h | h <;> cases h)
    simp only [resume_loop]
    split
    · refine h1.trans (Extends.trans ?_ (ih _))
      exact Extends.call _ _ (by intro m h; rcases h with h | h <;> cases h)
    · exact h1

theorem audio_resume_tail_writes (n : Int) (p : priv) (w : World) :
    Extends (writes_exactly n) w (audio_resume_tail p w) := by
  have hc : ∀ (v : World) (c : Call), (∀ m, c ≠ Call.snd_pcm_writei m) →
      (∀ m, c ≠ Call.snd_pcm_writen m) → Extends (writes_exactly n) v (v.call c).2 := by
    intro v c h1 h2
    refine Extends.call _ _ ?_
    intro m h
    rcases h with h | h
    · exact absurd h (h1 m)
    · exact absurd h (h2 m)
  unfold audio_resume_tail
  split
  · simp only []
    split
    · exact (hc _ _ (by simp) (by simp)).trans (hc _ _ (by simp) (by simp))
    · exact hc _ _ (by simp) (by simp)
  · simp only []
    split
    · exact hc _ _ (by simp) (by simp)
    · split
      · exact (hc _ _ (by simp) (by simp)).trans (hc _ _ (by simp) (by simp))
      · exact hc _ _ (by simp) (by simp)

theorem audio_resume_writes (n : Int) (fuel : Nat) (p : priv) (w : World) :
    Extends (writes_exactly n) w (audio_resume fuel p w).2 := by
  have h1 : Extends (writes_exactly n) w (w.call Call.snd_pcm_state).2 :=
    Extends.call _ _ (by intro m h; rcases h with h | h <;> cases h)
  unfold audio_resume
  simp only []
  split
  · have h2 := resume_loop_writes n fuel (w.call Call.snd_pcm_state).2
    split
    · rename_i w1 heq
      rw [heq] at h2
      exact h1.trans h2
    · rename_i x w1 heq
      rw [heq] at h2
      exact h1.trans (h2.trans (audio_resume_tail_writes n p w1))
  · exact h1.trans (audio_resume_tail_writes n p _)

theorem play_loop_writes (env : Env) (a : ao) (p : priv) (samples : Int)
    (fuel : Nat) (w : World) :
    Extends (writes_exactly samples) w (play_loop env a p samples fuel w).2 := by
  induction fuel generalizing w with
  | zero => exact Extends.refl _ _
  | succ k ih =>
    have h1 : Extends (writes_exactly samples) w
        (w.call (write_call env a samples)).2 := by
      refine Extends.call _ _ ?_
      intro m h
      unfold write_call at h
      split at h
      · rcases h with h | h
        · cases h
        · injection h with h; exact h.symm
      · rcases h with h | h
        · injection h with h; exact h.symm
        · cases h
    simp only [play_loop]
    split
    · exact h1.trans (ih _)
    · split
      · have h2 := audio_resume_writes samples k p (w.call (write_call env a samples)).2
        split
        · exact h1.trans h2
        · exact h1.trans h2
      · split
        · have h3 : Extends (writes_exactly samples)
              (w.call (write_call env a samples)).2
              ((w.call (write_call env a samples)).2.call Call.snd_pcm_prepare).2 :=
            Extends.call _ _ (by intro m h; rcases h with h | h <;> cases h)
          split
          · exact h1.trans h3
          · exact h1.trans (h3.trans (ih _))
        · split
          · exact h1.trans (ih _)
          · exact h1

/-- C2: for a period `outburst > 0` and a requested count `samples >= 0`
(in the range of `int`), every frame count `play` passes to the device
write (`snd_pcm_writei` or `snd_pcm_writen`), on the first attempt and on
every retry, is one and the same number: `samples` rounded down to a
multiple of `outburst` when `AOPLAY_FINAL_CHUNK` is not set, and exactly
`samples` when it is set.  This holds for every device and however long
the loop runs. -/
theorem play_write_counts (env : Env) (fuel : Nat) (a : ao) (p : priv)
    (samples : Int) (flags : Nat) (w : World)
    (hob : 0 < p.outburst) (hs : 0 ≤ samples) (hs2 : samples < 2147483648) :
    (∃ l, (play env fuel a p samples flags w).2.log = w.log ++ l ∧
      ∀ e ∈ l, ∀ m,
        e.1 = Call.snd_pcm_writei m ∨ e.1 = Call.snd_pcm_writen m →
        m = if flags &&& AOPLAY_FINAL_CHUNK = 0
            then samples / p.outburst * p.outburst else samples) ∧
    p.outburst ∣ samples / p.outburst * p.outburst ∧
    samples / p.outburst * p.outburst ≤ samples ∧
    samples < samples / p.outburst * p.outburst + p.outburst := by
  have hle : samples / p.outburst * p.outburst ≤ samples :=
    Int.ediv_mul_le samples hob.ne'
  have hnn : 0 ≤ samples / p.outburst * p.outburst :=
    mul_nonneg (Int.ediv_nonneg hs hob.le) hob.le
  have htd : to_int (samples.tdiv p.outburst * p.outburst)
      = samples / p.outburst * p.outburst := by
    rw [Int.tdiv_eq_ediv hs hob.le]
    exact to_int_of_range _ hnn (by omega)
  refine ⟨?_, Dvd.intro_left _ rfl, hle, ?_⟩
  · have key : Extends (writes_exactly (if flags &&& AOPLAY_FINAL_CHUNK = 0
          then samples / p.outburst * p.outburst else samples)) w
        (play env fuel a p samples flags w).2 := by
      unfold play
      simp only [htd]
      by_cases hf : flags &&& AOPLAY_FINAL_CHUNK = 0
      · simp only [if_pos hf]
        by_cases h0 : samples / p.outburst * p.outburst = 0
        · rw [if_pos h0]; exact Extends.refl _ _
        · rw [if_neg h0]; exact play_loop_writes env a p _ fuel w
      · simp only [if_neg hf]
        by_cases h0 : samples = 0
        · rw [if_pos h0]; exact Extends.refl _ _
        · rw [if_neg h0]; exact play_loop_writes env a p _ fuel w
    obtain ⟨_, l, hl, hp⟩ := key
    exact ⟨l, hl, fun e he m hm => hp e he m hm⟩
  · have := Int.lt_ediv_add_one_mul_self samples hob
    linarith

/-- C2 at a concrete call: 200 frames requested with a period of 64 on a
device that interrupts the first write and blocks the second. -/
theorem play_write_counts_witness :
    (0 < priv_1024_64.outburst ∧ (0 : Int) ≤ 200 ∧ (200 : Int) < 2147483648) ∧
    ((∃ l, (play sampleEnv 5 ao_s16_stereo priv_1024_64 200 0
          ⟨dev_retry_then_128, []⟩).2.log = [] ++ l ∧
      ∀ e ∈ l, ∀ m,
        e.1 = Call.snd_pcm_writei m ∨ e.1 = Call.snd_pcm_writen m →
        m = if 0 &&& AOPLAY_FINAL_CHUNK = 0
            then 200 / priv_1024_64.outburst * priv_1024_64.outburst else 200) ∧
    priv_1024_64.outburst ∣ 200 / priv_1024_64.outburst * priv_1024_64.outburst ∧
    200 / priv_1024_64.outburst * priv_1024_64.outburst ≤ 200 ∧
    200 < 200 / priv_1024_64.outburst * priv_1024_64.outburst
      + priv_1024_64.outburst) :=
  ⟨by decide, play_write_counts sampleEnv 5 ao_s16_stereo priv_1024_64 200 0
    ⟨dev_retry_then_128, []⟩ (by decide) (by decide) (by decide)⟩

/-- The trace of that call: three writes of 192 frames each, the last of
which consumes 128 frames, and `play` returns 128. -/
theorem play_retry_trace :
    play sampleEnv 5 ao_s16_stereo priv_1024_64 200 0 ⟨dev_retry_then_128, []⟩
      |>.2.log.map Prod.fst =
      [Call.snd_pcm_writei 192, Call.snd_pcm_writei 192, Call.snd_pcm_writei 192]
    ∧ (play sampleEnv 5 ao_s16_stereo priv_1024_64 200 0
        ⟨dev_retry_then_128, []⟩).1 = some 128 := by
  decide

/-! ## `play`: a suspended stream -/

/-- Whatever the device, when the write of an iteration of the loop of
`play` returns `-ESTRPIPE`, the loop calls `audio_resume` and then ends
without another write: once `audio_resume` has returned, `play` returns
`-1`, and the history is that of the write followed by `audio_resume`. -/
theorem play_loop_suspended (env : Env) (a : ao) (p : priv) (samples : Int)
    (fuel : Nat) (w : World)
    (hsusp : (w.peek (write_call env a samples)).ret = -ESTRPIPE)
    (hres : (audio_resume fuel p (w.call (write_call env a samples)).2).1 = true) :
    play_loop env a p samples (fuel + 1) w =
      (some (-1), (audio_resume fuel p (w.call (write_call env a samples)).2).2) := by
  have h1 : (w.call (write_call env a samples)).1.ret = -ESTRPIPE := hsusp
  simp only [play_loop, h1, hres]
  simp [ESTRPIPE, EINTR, EAGAIN]

/-- C3, the failing input: a write of 128 frames (two periods of 64) on a
device with native pause whose first write returns `-ESTRPIPE`.  `play`
calls `audio_resume` (state query, `snd_pcm_resume`, state query) and
returns `-1`; the write is issued once and never retried, although the
device would have consumed 128 frames on the next write. -/
theorem play_suspended_returns_failure :
    (play sampleEnv 5 ao_s16_stereo priv_can_pause 128 0
        ⟨dev_suspended_once, []⟩).1 = some (-1) ∧
    (play sampleEnv 5 ao_s16_stereo priv_can_pause 128 0
        ⟨dev_suspended_once, []⟩).2.log.map Prod.fst =
      [Call.snd_pcm_writei 128, Call.snd_pcm_state, Call.snd_pcm_resume,
        Call.snd_pcm_state] ∧
    (World.peek (play sampleEnv 5 ao_s16_stereo priv_can_pause 128 0
        ⟨dev_suspended_once, []⟩).2 (Call.snd_pcm_writei 128)).ret = 128 := by
  decide

/-! ## `get_delay` after `audio_pause` -/

/-- The value `audio_pause` stores on a device with native pause that
is running: the result of `get_delay` at that moment. -/
theorem audio_pause_native_capture (a : ao) (p : priv) (w : World)
    (hcp : p.can_pause ≠ 0)
    (hrun : (w.peek Call.snd_pcm_state).st = PcmState.RUNNING) :
    (audio_pause a p w).1.delay_before_pause
      = (get_delay a p (w.call Call.snd_pcm_state).2).1 := by
  have h : (w.call Call.snd_pcm_state).1.st = PcmState.RUNNING := hrun
  simp only [audio_pause, if_pos hcp, h, if_true]

/-- The value `audio_pause` stores on a device without native pause: the
frames in flight (0 when the delay query fails or is negative) divided by
the sample rate. -/
theorem audio_pause_emulated_capture (a : ao) (p : priv) (w : World)
    (hcp : p.can_pause = 0) :
    (audio_pause a p w).1.prepause_frames
      = (if (w.peek Call.snd_pcm_delay).ret < 0 ∨ (w.peek Call.snd_pcm_delay).sval < 0
          then 0 else (w.peek Call.snd_pcm_delay).sval) ∧
    (audio_pause a p w).1.delay_before_pause
      = (((audio_pause a p w).1.prepause_frames : Int) : ℚ) / (a.samplerate : ℚ) := by
  simp only [audio_pause, hcp, World.call, World.peek]
  simp

/-- C4, counterexample: on a device without native pause, `audio_pause`
captures a delay of one second (48000 frames at 48000 Hz) and drops the
buffer; the device is then in state `SETUP`, so the next `get_delay` asks
the device and returns the live value 0, not the captured second. -/
theorem get_delay_after_emulated_pause_is_live :
    (audio_pause ao_s16_stereo priv_no_pause ⟨dev_emulated_pause, []⟩).1.delay_before_pause
      = 1 ∧
    (get_delay ao_s16_stereo
      (audio_pause ao_s16_stereo priv_no_pause ⟨dev_emulated_pause, []⟩).1
      (audio_pause ao_s16_stereo priv_no_pause ⟨dev_emulated_pause, []⟩).2).1 = 0 := by
  simp [audio_pause, get_delay, World.call, priv_no_pause, dev_emulated_pause,
    scripted, ao_s16_stereo]

/-- C4, amended: after `audio_pause`, if the device reports the `PAUSED`
transport state to the next `get_delay`, then `get_delay` returns the
stored `delay_before_pause` without querying the live delay (its only call
is the state query), whatever that query would report; and when
`audio_pause` ran on a running device with native pause, that stored value
is the delay `get_delay` measured at the moment of the pause. -/
theorem get_delay_after_pause (a : ao) (p : priv) (w : World)
    (hpaused : ((audio_pause a p w).2.peek Call.snd_pcm_state).st = PcmState.PAUSED) :
    (get_delay a (audio_pause a p w).1 (audio_pause a p w).2).1
      = (audio_pause a p w).1.delay_before_pause ∧
    (get_delay a (audio_pause a p w).1 (audio_pause a p w).2).2.log.map Prod.fst
      = (audio_pause a p w).2.log.map Prod.fst ++ [Call.snd_pcm_state] ∧
    (p.can_pause ≠ 0 → (w.peek Call.snd_pcm_state).st = PcmState.RUNNING →
      (get_delay a (audio_pause a p w).1 (audio_pause a p w).2).1
        = (get_delay a p (w.call Call.snd_pcm_state).2).1) := by
  have h : ((audio_pause a p w).2.call Call.snd_pcm_state).1.st = PcmState.PAUSED :=
    hpaused
  have hv : (get_delay a (audio_pause a p w).1 (audio_pause a p w).2).1
      = (audio_pause a p w).1.delay_before_pause := by
    simp only [get_delay, h, if_true]
  refine ⟨hv, ?_, ?_⟩
  · simp only [get_delay, h, if_true]
    simp [World.call]
  · intro hcp hrun
    rw [hv, audio_pause_native_capture a p w hcp hrun]

/-- C4 amended, at a concrete session: a device with native pause, running
with 24000 frames in flight at 48000 Hz, then paused. -/
theorem get_delay_after_pause_witness :
    ((audio_pause ao_s16_stereo priv_can_pause ⟨dev_native_pause, []⟩).2.peek
        Call.snd_pcm_state).st = PcmState.PAUSED ∧
    (get_delay ao_s16_stereo
        (audio_pause ao_s16_stereo priv_can_pause ⟨dev_native_pause, []⟩).1
        (audio_pause ao_s16_stereo priv_can_pause ⟨dev_native_pause, []⟩).2).1
      = (audio_pause ao_s16_stereo priv_can_pause
          ⟨dev_native_pause, []⟩).1.delay_before_pause :=
  ⟨by simp [audio_pause, get_delay, World.call, World.peek, priv_can_pause,
      dev_native_pause, scripted],
   (get_delay_after_pause ao_s16_stereo priv_can_pause ⟨dev_native_pause, []⟩
    (by simp [audio_pause, get_delay, World.call, World.peek, priv_can_pause,
      dev_native_pause, scripted])).1⟩

/-- In that session the value returned after the pause is half a second. -/
theorem get_delay_native_pause_value :
    (get_delay ao_s16_stereo
        (audio_pause ao_s16_stereo priv_can_pause ⟨dev_native_pause, []⟩).1
        (audio_pause ao_s16_stereo priv_can_pause ⟨dev_native_pause, []⟩).2).1
      = 1 / 2 := by
  simp [audio_pause, get_delay, World.call, priv_can_pause, dev_native_pause,
    scripted, ao_s16_stereo]
  norm_num

/-! ## Emulated pause: silence replay -/

theorem frames_written_append (l1 l2 : List Event) :
    frames_written (l1 ++ l2) = frames_written l1 + frames_written l2 := by
  simp [frames_written]

theorem silence_calls_append (l1 l2 : List Event) :
    silence_calls (l1 ++ l2) = silence_calls l1 ++ silence_calls l2 := by
  simp [silence_calls]

theorem prepare_ok_append (l1 l2 : List Event) :
    prepare_ok (l1 ++ l2) = (prepare_ok l1 || prepare_ok l2) := by
  simp [prepare_ok]

theorem quiet_trace (l : List Event) (h : ∀ e ∈ l, quiet e) :
    silence_calls l = [] ∧ prepare_ok l = false ∧ frames_written l = 0 := by
  induction l with
  | nil => simp [silence_calls, prepare_ok, frames_written]
  | cons e t ih =>
    obtain ⟨i1, i2, i3⟩ := ih (fun x hx => h x (List.mem_cons_of_mem _ hx))
    obtain ⟨q1, q2, q3, q4⟩ := h e (List.mem_cons_self _ _)
    have e1 : silence_calls [e] = [] := by
      unfold silence_calls
      rw [List.filterMap_cons]
      split
      · rfl
      · rename_i b hn
        split at hn
        · rename_i m hm; exact absurd hm (q2 m)
        · cases hn
    have e2 : prepare_ok [e] = false := by
      simp [prepare_ok, q1]
    have e3 : frames_written [e] = 0 := by
      unfold frames_written frames_written_by
      rw [List.map_cons, List.map_nil, List.sum_cons, List.sum_nil, add_zero]
      split
      · rename_i n hn; exact absurd hn (q2 n)
      · rename_i n hn; exact absurd hn (q3 n)
      · rename_i n hn; exact absurd hn (q4 n)
      · rfl
    have hc : e :: t = [e] ++ t := rfl
    rw [hc, silence_calls_append, prepare_ok_append, frames_written_append,
      e1, e2, e3, i1, i2, i3]
    simp

theorem resume_loop_quiet (fuel : Nat) (w : World) :
    Extends quiet w (resume_loop fuel w).2 := by
  induction fuel generalizing w with
  | zero => exact Extends.refl _ _
  | succ k ih =>
    have h1 : Extends quiet w (w.call Call.snd_pcm_resume).2 :=
      Extends.call _ _ (by simp [quiet])
    simp only [resume_loop]
    split
    · exact h1.trans (Extends.trans (Extends.call _ _ (by simp [quiet])) (ih _))
    · exact h1

theorem audio_resume_tail_emulated (p : priv) (w : World) (hcp : p.can_pause = 0) :
    ∃ T, (audio_resume_tail p w).log = w.log ++ T ∧
      silence_calls T
        = (if prepare_ok T = true ∧ p.prepause_frames ≠ 0
            then [p.prepause_frames] else []) ∧
      frames_written T = (if prepare_ok T = true then max p.prepause_frames 0 else 0) := by
  unfold audio_resume_tail
  rw [if_neg (by simp [hcp])]
  by_cases hr : (w.call Call.snd_pcm_prepare).1.ret < 0
  · simp only [hr, if_true]
    refine ⟨[(Call.snd_pcm_prepare, w.peek Call.snd_pcm_prepare)], rfl, ?_, ?_⟩
    · have : ¬ (0 ≤ (w.peek Call.snd_pcm_prepare).ret) := not_le.mpr hr
      simp [silence_calls, prepare_ok, this]
    · have : ¬ (0 ≤ (w.peek Call.snd_pcm_prepare).ret) := not_le.mpr hr
      simp [frames_written, frames_written_by, prepare_ok, this]
  · simp only [hr, if_false]
    have hr2 : 0 ≤ (w.peek Call.snd_pcm_prepare).ret := not_lt.mp hr
    by_cases hz : p.prepause_frames = 0
    · rw [if_neg (by simp [hz])]
      refine ⟨[(Call.snd_pcm_prepare, w.peek Call.snd_pcm_prepare)], rfl, ?_, ?_⟩
      · simp [silence_calls, hz]
      · simp [frames_written, frames_written_by, hz]
    · rw [if_pos hz]
      refine ⟨[(Call.snd_pcm_prepare, w.peek Call.snd_pcm_prepare),
        (Call.ao_play_silence p.prepause_frames,
          (w.call Call.snd_pcm_prepare).2.peek (Call.ao_play_silence p.prepause_frames))],
        ?_, ?_, ?_⟩
      · simp [World.call, World.peek]
      · simp [silence_calls, prepare_ok, hr2, hz]
      · simp [frames_written, frames_written_by, prepare_ok, hr2]

theorem audio_resume_emulated (fuel : Nat) (p : priv) (w : World)
    (hcp : p.can_pause = 0) :
    ∃ T, (audio_resume fuel p w).2.log = w.log ++ T ∧
      silence_calls T
        = (if prepare_ok T = true ∧ p.prepause_frames ≠ 0
            then [p.prepause_frames] else []) ∧
      frames_written T = (if prepare_ok T = true then max p.prepause_frames 0 else 0) := by
  have glue : ∀ (w1 : World), Extends quiet w w1 →
      ∃ T, (audio_resume_tail p w1).log = w.log ++ T ∧
        silence_calls T
          = (if prepare_ok T = true ∧ p.prepause_frames ≠ 0
              then [p.prepause_frames] else []) ∧
        frames_written T
          = (if prepare_ok T = true then max p.prepause_frames 0 else 0) := by
    intro w1 hq
    obtain ⟨_, l, hl, hlq⟩ := hq
    obtain ⟨q1, q2, q3⟩ := quiet_trace l hlq
    obtain ⟨T, hT, hs, hf⟩ := audio_resume_tail_emulated p w1 hcp
    refine ⟨l ++ T, by rw [hT, hl, List.append_assoc], ?_, ?_⟩
    · rw [silence_calls_append, prepare_ok_append, q1, q2, hs]; simp
    · rw [frames_written_append, prepare_ok_append, q2, q3, hf]; simp
  have h1 : Extends quiet w (w.call Call.snd_pcm_state).2 :=
    Extends.call _ _ (by simp [quiet])
  unfold audio_resume
  simp only []
  split
  · have h2 := resume_loop_quiet fuel (w.call Call.snd_pcm_state).2
    split
    · rename_i w1 heq
      rw [heq] at h2
      obtain ⟨_, l, hl, hlq⟩ := h1.trans h2
      obtain ⟨q1, q2, q3⟩ := quiet_trace l hlq
      exact ⟨l, hl, by simp [q1, q2], by simp [q2, q3]⟩
    · rename_i x w1 heq
      rw [heq] at h2
      exact glue w1 (h1.trans h2)
  · exact glue _ h1

theorem play_extends (env : Env) (fuel : Nat) (a : ao) (p : priv)
    (samples : Int) (flags : Nat) (w : World) :
    ∃ l, (play env fuel a p samples flags w).2.log = w.log ++ l := by
  unfold play
  simp only []
  generalize (if flags &&& AOPLAY_FINAL_CHUNK = 0
    then to_int (samples.tdiv p.outburst * p.outburst) else samples) = n
  by_cases h0 : n = 0
  · rw [if_pos h0]; exact ⟨[], by simp⟩
  · rw [if_neg h0]
    obtain ⟨_, l, hl, _⟩ := play_loop_writes env a p n fuel w
    exact ⟨l, hl⟩

/-- C5: on a device without native pause (`can_pause = 0`), for every
device behaviour, `audio_pause` records as in-flight frames the count `d`
of a successful delay query with `d > 0`, and `0` when the query fails or
reports `d <= 0`, and writes nothing; the following `audio_resume` requests
`ao_play_silence` exactly once, for exactly that count, when its
re-prepare succeeded and the count is non-zero, and not at all otherwise;
so the frames written across the pause, the resume and a later `play`
total the in-flight frames (after a successful re-prepare) plus the frames
written after the resume. -/
theorem pause_resume_replays_in_flight (env : Env) (a : ao) (p : priv) (w : World)
    (fuel fuel2 : Nat) (samples : Int) (flags : Nat) (hcp : p.can_pause = 0) :
    ∃ Tp Tr Tl : List Event,
      (audio_pause a p w).2.log = w.log ++ Tp ∧
      (audio_resume fuel (audio_pause a p w).1 (audio_pause a p w).2).2.log
        = (audio_pause a p w).2.log ++ Tr ∧
      (play env fuel2 a (audio_pause a p w).1 samples flags
          (audio_resume fuel (audio_pause a p w).1 (audio_pause a p w).2).2).2.log
        = (audio_resume fuel (audio_pause a p w).1 (audio_pause a p w).2).2.log ++ Tl ∧
      (audio_pause a p w).1.prepause_frames
        = (if (w.peek Call.snd_pcm_delay).ret < 0 ∨ (w.peek Call.snd_pcm_delay).sval ≤ 0
            then 0 else (w.peek Call.snd_pcm_delay).sval) ∧
      silence_calls Tr
        = (if prepare_ok Tr = true ∧ (audio_pause a p w).1.prepause_frames ≠ 0
            then [(audio_pause a p w).1.prepause_frames] else []) ∧
      frames_written (Tp ++ Tr ++ Tl)
        = (if prepare_ok Tr = true then (audio_pause a p w).1.prepause_frames else 0)
          + frames_written Tl := by
  have hframes : (audio_pause a p w).1.prepause_frames
      = (if (w.peek Call.snd_pcm_delay).ret < 0 ∨ (w.peek Call.snd_pcm_delay).sval ≤ 0
          then 0 else (w.peek Call.snd_pcm_delay).sval) := by
    rw [(audio_pause_emulated_capture a p w hcp).1]
    by_cases h1 : (w.peek Call.snd_pcm_delay).ret < 0
    · simp [h1]
    · by_cases h2 : (w.peek Call.snd_pcm_delay).sval < 0
      · simp [h2, le_of_lt h2]
      · by_cases h3 : (w.peek Call.snd_pcm_delay).sval = 0
        · simp [h1, h3]
        · have h4 : ¬ (w.peek Call.snd_pcm_delay).sval ≤ 0 := by omega
          simp [h1, h2, h4]
  have hnn : 0 ≤ (audio_pause a p w).1.prepause_frames := by
    rw [hframes]; split <;> omega
  have hcp2 : (audio_pause a p w).1.can_pause = 0 := by
    simp [audio_pause, hcp]
  have hTp : (audio_pause a p w).2.log = w.log ++
      [(Call.snd_pcm_delay, w.peek Call.snd_pcm_delay),
        (Call.snd_pcm_drop, (w.call Call.snd_pcm_delay).2.peek Call.snd_pcm_drop)] := by
    simp [audio_pause, hcp, World.call, World.peek]
  obtain ⟨Tr, hTr, hs, hf⟩ :=
    audio_resume_emulated fuel (audio_pause a p w).1 (audio_pause a p w).2 hcp2
  obtain ⟨Tl, hTl⟩ := play_extends env fuel2 a (audio_pause a p w).1 samples flags
    (audio_resume fuel (audio_pause a p w).1 (audio_pause a p w).2).2
  refine ⟨_, Tr, Tl, hTp, hTr, hTl, hframes, hs, ?_⟩
  rw [frames_written_append, frames_written_append, hf, max_eq_left hnn]
  simp [frames_written, frames_written_by]

/-- C5 at a concrete session: 300 frames in flight at the pause. -/
theorem pause_resume_replays_in_flight_witness :
    priv_no_pause.can_pause = 0 ∧
    ∃ Tp Tr Tl : List Event,
      (audio_pause ao_s16_stereo priv_no_pause ⟨dev_pause_resume_write, []⟩).2.log
        = [] ++ Tp ∧
      (audio_resume 3
          (audio_pause ao_s16_stereo priv_no_pause ⟨dev_pause_resume_write, []⟩).1
          (audio_pause ao_s16_stereo priv_no_pause ⟨dev_pause_resume_write, []⟩).2).2.log
        = (audio_pause ao_s16_stereo priv_no_pause
            ⟨dev_pause_resume_write, []⟩).2.log ++ Tr ∧
      (play sampleEnv 3 ao_s16_stereo
          (audio_pause ao_s16_stereo priv_no_pause ⟨dev_pause_resume_write, []⟩).1 128 0
          (audio_resume 3
            (audio_pause ao_s16_stereo priv_no_pause ⟨dev_pause_resume_write, []⟩).1
            (audio_pause ao_s16_stereo priv_no_pause
              ⟨dev_pause_resume_write, []⟩).2).2).2.log
        = (audio_resume 3
            (audio_pause ao_s16_stereo priv_no_pause ⟨dev_pause_resume_write, []⟩).1
            (audio_pause ao_s16_stereo priv_no_pause
              ⟨dev_pause_resume_write, []⟩).2).2.log ++ Tl ∧
      (audio_pause ao_s16_stereo priv_no_pause
          ⟨dev_pause_resume_write, []⟩).1.prepause_frames
        = (if (World.peek ⟨dev_pause_resume_write, []⟩ Call.snd_pcm_delay).ret < 0
              ∨ (World.peek ⟨dev_pause_resume_write, []⟩ Call.snd_pcm_delay).sval ≤ 0
            then 0
            else (World.peek ⟨dev_pause_resume_write, []⟩ Call.snd_pcm_delay).sval) ∧
      silence_calls Tr
        = (if prepare_ok Tr = true ∧
              (audio_pause ao_s16_stereo priv_no_pause
                ⟨dev_pause_resume_write, []⟩).1.prepause_frames ≠ 0
            then [(audio_pause ao_s16_stereo priv_no_pause
              ⟨dev_pause_resume_write, []⟩).1.prepause_frames] else []) ∧
      frames_written (Tp ++ Tr ++ Tl)
        = (if prepare_ok Tr = true
            then (audio_pause ao_s16_stereo priv_no_pause
              ⟨dev_pause_resume_write, []⟩).1.prepause_frames else 0)
          + frames_written Tl :=
  ⟨rfl, pause_resume_replays_in_flight sampleEnv ao_s16_stereo priv_no_pause
    ⟨dev_pause_resume_write, []⟩ 3 3 128 0 rfl⟩

/-- The calls of that session, in order: the delay query and the drop of
the pause; the state query, the re-prepare and the silence request for
300 frames of the resume; the write of the later `play`. -/
theorem pause_resume_trace :
    (play sampleEnv 3 ao_s16_stereo
        (audio_pause ao_s16_stereo priv_no_pause ⟨dev_pause_resume_write, []⟩).1 128 0
        (audio_resume 3
          (audio_pause ao_s16_stereo priv_no_pause ⟨dev_pause_resume_write, []⟩).1
          (audio_pause ao_s16_stereo priv_no_pause
            ⟨dev_pause_resume_write, []⟩).2).2).2.log.map Prod.fst
      = [Call.snd_pcm_delay, Call.snd_pcm_drop, Call.snd_pcm_state,
          Call.snd_pcm_prepare, Call.ao_play_silence 300, Call.snd_pcm_writei 128] := by
  decide

/-! ## `init`: what the later stages keep -/

theorem init_sw_keeps (chunk_size : Nat) (a : ao) (p : priv) (w : World) :
    (init_sw chunk_size a p w).a = a ∧
    (init_sw chunk_size a p w).p.alsa_fmt = p.alsa_fmt := by
  unfold init_sw
  simp only []
  split_ifs <;> simp [init_fail]

theorem init_geometry_keeps (a : ao) (p : priv) (w : World) :
    (init_geometry a p w).a = a ∧ (init_geometry a p w).p.alsa_fmt = p.alsa_fmt := by
  unfold init_geometry
  simp only []
  split_ifs
  · simp [init_fail]
  · simp [init_fail]
  · exact ⟨(init_sw_keeps _ _ _ _).1, (init_sw_keeps _ _ _ _).2⟩

theorem init_get_chmap_keeps (env : Env) (a : ao) (p : priv) (w : World) :
    (init_get_chmap env a p w).a.format = a.format ∧
    (init_get_chmap env a p w).a.samplerate = a.samplerate ∧
    (init_get_chmap env a p w).a.channels.num = a.channels.num ∧
    (init_get_chmap env a p w).p.alsa_fmt = p.alsa_fmt := by
  unfold init_get_chmap
  simp only []
  split
  · rw [(init_geometry_keeps _ _ _).1]; exact ⟨rfl, rfl, rfl, (init_geometry_keeps _ _ _).2⟩
  · split_ifs with h1 h2 h3
    · rw [(init_geometry_keeps _ _ _).1]; exact ⟨rfl, rfl, rfl, (init_geometry_keeps _ _ _).2⟩
    · rw [(init_geometry_keeps _ _ _).1]; exact ⟨rfl, rfl, h3, (init_geometry_keeps _ _ _).2⟩
    · rw [(init_geometry_keeps _ _ _).1]; exact ⟨rfl, rfl, rfl, (init_geometry_keeps _ _ _).2⟩
    · rw [(init_geometry_keeps _ _ _).1]; exact ⟨rfl, rfl, rfl, (init_geometry_keeps _ _ _).2⟩

theorem init_chmap_keeps (env : Env) (dev_chmap : mp_chmap) (a : ao) (p : priv)
    (w : World) :
    (init_chmap env dev_chmap a p w).a.format = a.format ∧
    (init_chmap env dev_chmap a p w).a.samplerate = a.samplerate ∧
    (init_chmap env dev_chmap a p w).a.channels.num = a.channels.num ∧
    (init_chmap env dev_chmap a p w).p.alsa_fmt = p.alsa_fmt := by
  unfold init_chmap
  simp only []
  split_ifs
  · simp [init_fail]
  · exact init_get_chmap_keeps _ _ _ _
  · exact init_get_chmap_keeps _ _ _ _
  · rw [(init_geometry_keeps _ _ _).1]; exact ⟨rfl, rfl, rfl, (init_geometry_keeps _ _ _).2⟩

theorem init_rate_keeps (env : Env) (dev_chmap : mp_chmap) (a : ao) (p : priv)
    (w : World) :
    (init_rate env dev_chmap a p w).a.format = a.format ∧
    (init_rate env dev_chmap a p w).a.channels.num = a.channels.num ∧
    (init_rate env dev_chmap a p w).p.alsa_fmt = p.alsa_fmt := by
  unfold init_rate
  simp only []
  split_ifs <;>
    first
    | exact ⟨rfl, rfl, rfl⟩
    | exact ⟨(init_chmap_keeps _ _ _ _ _).1, (init_chmap_keeps _ _ _ _ _).2.2.1,
        (init_chmap_keeps _ _ _ _ _).2.2.2⟩

theorem init_granted_keeps (env : Env) (dev_chmap : mp_chmap) (n : Int) (a : ao)
    (p : priv) (w : World) :
    (init_granted env dev_chmap n a p w).a.format = a.format ∧
    (init_granted env dev_chmap n a p w).p.alsa_fmt = p.alsa_fmt := by
  unfold init_granted
  split_ifs
  · simp [init_fail]
  · exact ⟨(init_rate_keeps _ _ _ _ _).1, (init_rate_keeps _ _ _ _ _).2.2⟩
  · exact ⟨(init_rate_keeps _ _ _ _ _).1, (init_rate_keeps _ _ _ _ _).2.2⟩

theorem init_channels_keeps (env : Env) (implied_chmap : mp_chmap) (a : ao)
    (p : priv) (w : World) :
    (init_channels env implied_chmap a p w).a.format = a.format ∧
    (init_channels env implied_chmap a p w).p.alsa_fmt = p.alsa_fmt := by
  have hc : (init_chosen env implied_chmap a w).format = a.format := by
    unfold init_chosen; split <;> rfl
  unfold init_channels
  split_ifs
  · exact ⟨hc, rfl⟩
  · rw [(init_granted_keeps _ _ _ _ _ _).1, (init_granted_keeps _ _ _ _ _ _).2]
    exact ⟨hc, rfl⟩

theorem init_access_keeps (env : Env) (implied_chmap : mp_chmap) (a : ao)
    (p : priv) (w : World) (hnp : env.af_fmt_is_planar a.format = false) :
    (init_access env implied_chmap a p w).a.format = a.format ∧
    (init_access env implied_chmap a p w).p.alsa_fmt = p.alsa_fmt := by
  unfold init_access
  simp only [hnp]
  split_ifs <;>
    first
    | exact ⟨rfl, rfl⟩
    | exact init_channels_keeps _ _ _ _ _
    | simp_all

/-! ## `init`: format selection -/

theorem init_fail_ret (a : ao) (p : priv) (w : World) :
    (init_fail a p w).ret = -1 ∧ (init_fail a p w).a = a ∧ (init_fail a p w).p = p :=
  ⟨rfl, rfl, rfl⟩

theorem init_native_format_iec (env : Env) (a : ao)
    (hiec : env.AF_FORMAT_IS_IEC61937 a.format = true) :
    init_native_format env a ≠ SndPcmFormat.UNKNOWN := by
  unfold init_native_format
  rw [if_pos hiec]
  split <;> simp

theorem init_access_s16 (env : Env) (implied_chmap : mp_chmap) (a : ao) (p : priv)
    (w : World) (hS16 : env.af_fmt_is_planar AfFormat.S16 = false)
    (ha : a.format = AfFormat.S16) (hp : p.alsa_fmt = SndPcmFormat.S16) :
    (init_access env implied_chmap a p w).a.format = AfFormat.S16 ∧
    (init_access env implied_chmap a p w).p.alsa_fmt = SndPcmFormat.S16 := by
  have k := init_access_keeps env implied_chmap a p w (by rw [ha]; exact hS16)
  rw [k.1, k.2]
  exact ⟨ha, hp⟩

/-- Format selection when the native format of the request is missing or
rejected by the format test: a passthrough request fails with the format
left as requested; any other request that gets through ends with the 16 bit
format, which the device accepted in `snd_pcm_hw_params_set_format`. -/
theorem init_format_unsupported (env : Env) (implied_chmap : mp_chmap) (a : ao)
    (p : priv) (w : World)
    (hS16 : env.af_fmt_is_planar AfFormat.S16 = false)
    (hunsup : init_native_format env a = SndPcmFormat.UNKNOWN ∨
      (w.peek (Call.snd_pcm_hw_params_test_format (init_native_format env a))).ret < 0) :
    (env.AF_FORMAT_IS_IEC61937 a.format = true →
      (init_format env implied_chmap a p w).ret = -1 ∧
      (init_format env implied_chmap a p w).a.format = a.format) ∧
    (env.AF_FORMAT_IS_IEC61937 a.format = false →
      (init_format env implied_chmap a p w).ret = 0 →
      (init_format env implied_chmap a p w).a.format = AfFormat.S16 ∧
      (init_format env implied_chmap a p w).p.alsa_fmt = SndPcmFormat.S16 ∧
      0 ≤ ((w.call (Call.snd_pcm_hw_params_test_format
            (if init_native_format env a = SndPcmFormat.UNKNOWN then SndPcmFormat.S16
              else init_native_format env a))).2.peek
          (Call.snd_pcm_hw_params_set_format SndPcmFormat.S16)).ret) := by
  have hfail : ∀ (a1 : ao) (p1 : priv) (w1 : World), (init_fail a1 p1 w1).ret ≠ 0 := by
    intro a1 p1 w1 h
    have : (init_fail a1 p1 w1).ret = -1 := rfl
    omega
  constructor
  · intro hiec
    have hne := init_native_format_iec env a hiec
    have hrej : (w.call (Call.snd_pcm_hw_params_test_format
        (init_native_format env a))).1.ret < 0 := by
      rcases hunsup with h | h
      · exact absurd h hne
      · exact h
    unfold init_format
    simp only [hne, if_false, hrej, hiec, and_self, if_true]
    exact ⟨rfl, rfl⟩
  · intro hiec hret
    by_cases hu : init_native_format env a = SndPcmFormat.UNKNOWN
    · unfold init_format at hret ⊢
      simp only [hu, if_true] at hret ⊢
      by_cases ht : (w.call (Call.snd_pcm_hw_params_test_format SndPcmFormat.S16)).1.ret < 0
      · simp only [ht, true_and, if_true] at hret ⊢
        by_cases hi : env.AF_FORMAT_IS_IEC61937 AfFormat.S16 = true
        · rw [if_pos hi] at hret; exact absurd hret (hfail _ _ _)
        · rw [if_neg hi] at hret ⊢
          by_cases hs : ((w.call (Call.snd_pcm_hw_params_test_format SndPcmFormat.S16)).2.call
              (Call.snd_pcm_hw_params_set_format SndPcmFormat.S16)).1.ret < 0
          · rw [if_pos hs] at hret; exact absurd hret (hfail _ _ _)
          · rw [if_neg hs] at hret ⊢
            exact ⟨(init_access_s16 env implied_chmap _ _ _ hS16 rfl rfl).1,
              (init_access_s16 env implied_chmap _ _ _ hS16 rfl rfl).2, not_lt.mp hs⟩
      · simp only [ht, false_and, if_false] at hret ⊢
        by_cases hs : ((w.call (Call.snd_pcm_hw_params_test_format SndPcmFormat.S16)).2.call
            (Call.snd_pcm_hw_params_set_format SndPcmFormat.S16)).1.ret < 0
        · rw [if_pos hs] at hret; exact absurd hret (hfail _ _ _)
        · rw [if_neg hs] at hret ⊢
          exact ⟨(init_access_s16 env implied_chmap _ _ _ hS16 rfl rfl).1,
            (init_access_s16 env implied_chmap _ _ _ hS16 rfl rfl).2, not_lt.mp hs⟩
    · have hrej : (w.call (Call.snd_pcm_hw_params_test_format
          (init_native_format env a))).1.ret < 0 := by
        rcases hunsup with h | h
        · exact absurd h hu
        · exact h
      unfold init_format at hret ⊢
      simp only [hu, if_false, hrej, hiec, Bool.false_eq_true, and_false, if_true] at hret ⊢
      by_cases hs : ((w.call (Call.snd_pcm_hw_params_test_format
          (init_native_format env a))).2.call
          (Call.snd_pcm_hw_params_set_format SndPcmFormat.S16)).1.ret < 0
      · rw [if_pos hs] at hret; exact absurd hret (hfail _ _ _)
      · rw [if_neg hs] at hret ⊢
        exact ⟨(init_access_s16 env implied_chmap _ _ _ hS16 rfl rfl).1,
          (init_access_s16 env implied_chmap _ _ _ hS16 rfl rfl).2, not_lt.mp hs⟩

/-- C6: let the open and `snd_pcm_hw_params_any` succeed, and let the
native format of the requested format be unsupported: the format table has
no entry for it, or the device rejects it in the format test.  If the
request is a passthrough (IEC61937) format, `init` returns `-1` and the
format is left as requested, not substituted.  Otherwise, whenever `init`
returns `0`, `ao->format` is `AF_FORMAT_S16` and `p->alsa_fmt` is
`SND_PCM_FORMAT_S16`, and the device accepted that format in
`snd_pcm_hw_params_set_format`.  (`AF_FORMAT_S16` is an interleaved format in
audio/format.h, which the hypothesis `hS16` records.) -/
theorem init_unsupported_format (env : Env) (a : ao) (p : priv) (w : World)
    (hS16 : env.af_fmt_is_planar AfFormat.S16 = false)
    (hopen : 0 ≤ (init_opened env a p w).1)
    (hany : 0 ≤ (init_params_any env a p w).1.ret)
    (hunsup : init_native_format env (init_requested env a p) = SndPcmFormat.UNKNOWN ∨
      ((init_params_any env a p w).2.peek (Call.snd_pcm_hw_params_test_format
        (init_native_format env (init_requested env a p)))).ret < 0) :
    (env.AF_FORMAT_IS_IEC61937 (init_requested env a p).format = true →
      (init env a p w).ret = -1 ∧
      (init env a p w).a.format = (init_requested env a p).format) ∧
    (env.AF_FORMAT_IS_IEC61937 (init_requested env a p).format = false →
      (init env a p w).ret = 0 →
      (init env a p w).a.format = AfFormat.S16 ∧
      (init env a p w).p.alsa_fmt = SndPcmFormat.S16 ∧
      0 ≤ (((init_params_any env a p w).2.call (Call.snd_pcm_hw_params_test_format
            (if init_native_format env (init_requested env a p) = SndPcmFormat.UNKNOWN
              then SndPcmFormat.S16
              else init_native_format env (init_requested env a p)))).2.peek
          (Call.snd_pcm_hw_params_set_format SndPcmFormat.S16)).ret) := by
  have hinit : init env a p w
      = init_format env (init_device env (init_requested env a p) p).2
          (init_requested env a p) (init_opened env a p w).2.1
          (init_params_any env a p w).2 := by
    unfold init
    rw [if_neg (not_lt.mpr hopen), if_neg (not_lt.mpr hany)]
  rw [hinit]
  exact init_format_unsupported env _ _ _ _ hS16 hunsup

/-- C6 at a concrete request: 32 bit float stereo on a device that supports
only signed 16 bit. -/
theorem init_unsupported_format_witness :
    (sampleEnv.af_fmt_is_planar AfFormat.S16 = false ∧
      0 ≤ (init_opened sampleEnv ao_float_stereo {} ⟨dev_s16_stereo_48k, []⟩).1 ∧
      0 ≤ (init_params_any sampleEnv ao_float_stereo {} ⟨dev_s16_stereo_48k, []⟩).1.ret ∧
      ((init_params_any sampleEnv ao_float_stereo {} ⟨dev_s16_stereo_48k, []⟩).2.peek
        (Call.snd_pcm_hw_params_test_format
          (init_native_format sampleEnv
            (init_requested sampleEnv ao_float_stereo {})))).ret < 0) ∧
    (sampleEnv.AF_FORMAT_IS_IEC61937
        (init_requested sampleEnv ao_float_stereo {}).format = false →
      (init sampleEnv ao_float_stereo {} ⟨dev_s16_stereo_48k, []⟩).ret = 0 →
      (init sampleEnv ao_float_stereo {} ⟨dev_s16_stereo_48k, []⟩).a.format
        = AfFormat.S16 ∧
      (init sampleEnv ao_float_stereo {} ⟨dev_s16_stereo_48k, []⟩).p.alsa_fmt
        = SndPcmFormat.S16 ∧
      0 ≤ (((init_params_any sampleEnv ao_float_stereo {}
            ⟨dev_s16_stereo_48k, []⟩).2.call (Call.snd_pcm_hw_params_test_format
            (if init_native_format sampleEnv
                (init_requested sampleEnv ao_float_stereo {}) = SndPcmFormat.UNKNOWN
              then SndPcmFormat.S16
              else init_native_format sampleEnv
                (init_requested sampleEnv ao_float_stereo {})))).2.peek
          (Call.snd_pcm_hw_params_set_format SndPcmFormat.S16)).ret) :=
  ⟨⟨by decide, by decide, by decide, by decide⟩,
    (init_unsupported_format sampleEnv ao_float_stereo {} ⟨dev_s16_stereo_48k, []⟩
      (by decide) (by decide) (by decide) (Or.inr (by decide))).2⟩

/-- The float request on the 16 bit device: `init` succeeds with the 16 bit
format. -/
theorem init_float_on_s16_device :
    (init sampleEnv ao_float_stereo {} ⟨dev_s16_stereo_48k, []⟩).ret = 0 ∧
    (init sampleEnv ao_float_stereo {} ⟨dev_s16_stereo_48k, []⟩).a.format
      = AfFormat.S16 ∧
    (init sampleEnv ao_float_stereo {} ⟨dev_s16_stereo_48k, []⟩).p.alsa_fmt
      = SndPcmFormat.S16 := by
  decide

/-- A passthrough request on a device that rejects the format test: `init`
fails and the format is still the passthrough format. -/
theorem init_passthrough_rejected :
    (init sampleEnv ao_passthrough {} ⟨dev_no_format, []⟩).ret = -1 ∧
    (init sampleEnv ao_passthrough {} ⟨dev_no_format, []⟩).a.format
      = AfFormat.other 3 := by
  decide

/-! ## `init`: channel count negotiation -/

/-- C7: in the channel count negotiation of `init`, let the device grant
(without error) a count `n` that differs from the count of the chosen
layout.  If `n > MP_NUM_CHANNELS`, `init` fails with `-1`.  Otherwise the
negotiation goes on with the rate stage, on a record whose `channels` is
`mp_chmap_from_channels_alsa(n)`, and the count at the end of `init` is the
count of that generic layout.  In the scenario of the specification, a
request for 32 bit float, 5.1, 48000 Hz on a device that supports only
16 bit stereo at 48000 Hz, `init` returns `0` with `AF_FORMAT_S16`, 2
channels and 48000 Hz. -/
theorem init_channel_count_mismatch (env : Env) (implied_chmap : mp_chmap) (a : ao)
    (p : priv) (w : World)
    (hgrant : 0 ≤ (init_channels_near env implied_chmap a w).1.ret)
    (hne : (init_channels_near env implied_chmap a w).1.sval
      ≠ (init_chosen env implied_chmap a w).channels.num) :
    ((init_channels_near env implied_chmap a w).1.sval > env.MP_NUM_CHANNELS →
      (init_channels env implied_chmap a p w).ret = -1) ∧
    ((init_channels_near env implied_chmap a w).1.sval ≤ env.MP_NUM_CHANNELS →
      init_channels env implied_chmap a p w
        = init_rate env (init_dev_chmap env a w)
            { init_chosen env implied_chmap a w with
              channels := env.mp_chmap_from_channels_alsa
                (init_channels_near env implied_chmap a w).1.sval }
            p (init_channels_near env implied_chmap a w).2 ∧
      (init_channels env implied_chmap a p w).a.channels.num
        = (env.mp_chmap_from_channels_alsa
            (init_channels_near env implied_chmap a w).1.sval).num) ∧
    ((init sampleEnv ao_float_51 {} ⟨dev_s16_stereo_48k, []⟩).ret = 0 ∧
      (init sampleEnv ao_float_51 {} ⟨dev_s16_stereo_48k, []⟩).a.format = AfFormat.S16 ∧
      (init sampleEnv ao_float_51 {} ⟨dev_s16_stereo_48k, []⟩).a.channels.num = 2 ∧
      (init sampleEnv ao_float_51 {} ⟨dev_s16_stereo_48k, []⟩).a.samplerate = 48000) := by
  refine ⟨?_, ?_, by decide⟩
  · intro hbig
    unfold init_channels
    rw [if_neg (not_lt.mpr hgrant)]
    unfold init_granted
    rw [if_pos hbig]
    rfl
  · intro hsmall
    have h : init_channels env implied_chmap a p w
        = init_rate env (init_dev_chmap env a w)
            { init_chosen env implied_chmap a w with
              channels := env.mp_chmap_from_channels_alsa
                (init_channels_near env implied_chmap a w).1.sval }
            p (init_channels_near env implied_chmap a w).2 := by
      unfold init_channels
      rw [if_neg (not_lt.mpr hgrant)]
      unfold init_granted
      rw [if_neg (not_lt.mpr hsmall), if_pos hne]
    refine ⟨h, ?_⟩
    rw [h]
    exact (init_rate_keeps _ _ _ _ _).2.1

/-- C7 at a concrete state of the negotiation: a 5.1 layout on the device
that grants 2 channels. -/
theorem init_channel_count_mismatch_witness :
    (0 ≤ (init_channels_near sampleEnv ao_float_51.channels ao_float_51
        ⟨dev_s16_stereo_48k, []⟩).1.ret ∧
      (init_channels_near sampleEnv ao_float_51.channels ao_float_51
        ⟨dev_s16_stereo_48k, []⟩).1.sval
        ≠ (init_chosen sampleEnv ao_float_51.channels ao_float_51
            ⟨dev_s16_stereo_48k, []⟩).channels.num) ∧
    (init_channels sampleEnv ao_float_51.channels ao_float_51 {}
        ⟨dev_s16_stereo_48k, []⟩).a.channels.num
      = (sampleEnv.mp_chmap_from_channels_alsa
          (init_channels_near sampleEnv ao_float_51.channels ao_float_51
            ⟨dev_s16_stereo_48k, []⟩).1.sval).num :=
  ⟨by decide,
    ((init_channel_count_mismatch sampleEnv ao_float_51.channels ao_float_51 {}
      ⟨dev_s16_stereo_48k, []⟩ (by decide) (by decide)).2.1 (by decide)).2⟩

/-- The calls of `init` in the scenario of the specification, in order. -/
theorem init_float_51_trace :
    (init sampleEnv ao_float_51 {} ⟨dev_s16_stereo_48k, []⟩).w.log.map Prod.fst
      = [Call.snd_pcm_open "plug:surround51" 0, Call.snd_pcm_nonblock 0,
          Call.snd_pcm_hw_params_any,
          Call.snd_pcm_hw_params_test_format SndPcmFormat.FLOAT,
          Call.snd_pcm_hw_params_set_format SndPcmFormat.S16,
          Call.snd_pcm_hw_params_set_access PcmAccess.RW_INTERLEAVED,
          Call.snd_pcm_query_chmaps,
          Call.snd_pcm_hw_params_set_channels_near 6,
          Call.snd_pcm_hw_params_set_rate_resample 0,
          Call.snd_pcm_hw_params_set_rate_near 48000,
          Call.snd_pcm_hw_params_set_buffer_time_near 250000,
          Call.snd_pcm_hw_params_set_periods_near 16,
          Call.snd_pcm_hw_params,
          Call.snd_pcm_get_chmap,
          Call.snd_pcm_hw_params_get_buffer_size,
          Call.snd_pcm_hw_params_get_period_size,
          Call.snd_pcm_sw_params_current,
          Call.snd_pcm_sw_params_get_boundary,
          Call.snd_pcm_sw_params_set_start_threshold 750,
          Call.snd_pcm_sw_params_set_stop_threshold 1572864000,
          Call.snd_pcm_sw_params_set_silence_size 1572864000,
          Call.snd_pcm_sw_params,
          Call.snd_pcm_hw_params_can_pause] := by
  decide

/-! ## `init`: the device identifier -/

/-- C8, counterexample: with the override string "hw:0" in `ao->device`
and the device option "hw:1" configured, `init` opens "hw:1": the
override string is present and is not the identifier that is opened. -/
theorem init_device_option_beats_override :
    ao_override.device = some "hw:0" ∧
    (init_device sampleEnv (init_requested sampleEnv ao_override priv_cfg_device)
      priv_cfg_device).1 = "hw:1" ∧
    ((init sampleEnv ao_override priv_cfg_device
        ⟨dev_s16_stereo_48k, []⟩).w.log.map Prod.fst).head?
      = some (Call.snd_pcm_open "hw:1" 0) := by
  decide

/-- C8, amended: the identifier `init` passes to `try_open_device` follows
the precedence configured device option, then override string, then the
name computed from the layout.  A non-empty `cfg_device` is used whenever
it is set; otherwise `ao->device` when it is present; otherwise "iec958"
for a passthrough format and else the name `select_chmap` returns, with
"plug:" in front unless it is "default".  Both open attempts of `init` go
through `try_open_device` with that identifier. -/
theorem init_device_precedence (env : Env) (a : ao) (p : priv) (w : World) :
    (∀ d, p.cfg_device = some d → d ≠ "" → (init_device env a p).1 = d) ∧
    (∀ d, (p.cfg_device = none ∨ p.cfg_device = some "") → a.device = some d →
      (init_device env a p).1 = d) ∧
    ((p.cfg_device = none ∨ p.cfg_device = some "") → a.device = none →
      (init_device env a p).1
        = if env.AF_FORMAT_IS_IEC61937 a.format = true then "iec958"
          else if (select_chmap env a.channels).1 = "default" then "default"
          else "plug:" ++ (select_chmap env a.channels).1) ∧
    init_opened env a p w
      = (if (init_first_attempt env a p w).1 < 0 ∧
            (init_first_attempt env a p w).1 ≠ -EBUSY ∧ p.cfg_block = 0 then
          try_open_device env (init_requested env a p)
            (init_first_attempt env a p w).2.1
            (init_device env (init_requested env a p) p).1 0
            (init_first_attempt env a p w).2.2
        else init_first_attempt env a p w) := by
  refine ⟨?_, ?_, ?_, ?_⟩
  · intro d hd hne
    simp [init_device, hd, hne]
  · intro d hc ha
    rcases hc with hc | hc <;> simp [init_device, hc, ha]
  · intro hc ha
    have hcomp : (if env.AF_FORMAT_IS_IEC61937 a.format = true then ("iec958", a.channels)
          else if (select_chmap env a.channels).1 ≠ "default"
            then ("plug:" ++ (select_chmap env a.channels).1, (select_chmap env a.channels).2)
            else ((select_chmap env a.channels).1, (select_chmap env a.channels).2)).1
        = if env.AF_FORMAT_IS_IEC61937 a.format = true then "iec958"
          else if (select_chmap env a.channels).1 = "default" then "default"
          else "plug:" ++ (select_chmap env a.channels).1 := by
      split_ifs <;> simp_all
    rcases hc with hc | hc <;> simp only [init_device, hc, ha] <;> simpa using hcomp
  · unfold init_opened init_open init_first_attempt
    simp only []
    split_ifs <;> simp_all

/-! ## `init`: the open attempts -/

/-- When the open attempts end with an error, `init` fails at the open: it
returns `-1` and issues nothing further but the `uninit` of its error exit. -/
theorem init_fails_at_open (env : Env) (a : ao) (p : priv) (w : World)
    (h : (init_opened env a p w).1 < 0) :
    (init env a p w).ret = -1 ∧
    (init env a p w).w = uninit (init_opened env a p w).2.1 (init_opened env a p w).2.2 := by
  unfold init
  rw [if_pos h]
  exact ⟨rfl, rfl⟩

/-- C9, counterexample: a session configured non-blocking on a device whose
non-blocking open fails with `-EBUSY` and whose blocking open would
succeed.  `init` issues the one non-blocking open and returns `-1`; there
is no second attempt. -/
theorem init_busy_not_retried :
    priv_nonblock.cfg_block = 0 ∧
    (init_first_attempt sampleEnv ao_s16_stereo priv_nonblock ⟨dev_busy, []⟩).1 = -EBUSY ∧
    (World.peek (init_first_attempt sampleEnv ao_s16_stereo priv_nonblock
      ⟨dev_busy, []⟩).2.2 (Call.snd_pcm_open "default" 0)).ret = 0 ∧
    (init sampleEnv ao_s16_stereo priv_nonblock ⟨dev_busy, []⟩).ret = -1 ∧
    (init sampleEnv ao_s16_stereo priv_nonblock ⟨dev_busy, []⟩).w.log.map Prod.fst
      = [Call.snd_pcm_open "default" SND_PCM_NONBLOCK] := by
  decide

/-- C9, amended: when the session is configured for a non-blocking open
(`cfg_block = 0`) and the non-blocking attempt fails with an error other
than `-EBUSY`, `init` makes a second attempt in blocking mode with the same
identifier, and it fails at the open exactly when that attempt fails too;
when the non-blocking attempt fails with `-EBUSY`, there is no second
attempt and `init` returns `-1`. -/
theorem init_open_retry (env : Env) (a : ao) (p : priv) (w : World)
    (hnb : p.cfg_block = 0)
    (hfail : (init_first_attempt env a p w).1 < 0) :
    (init_first_attempt env a p w
      = try_open_device env (init_requested env a p) p
          (init_device env (init_requested env a p) p).1 SND_PCM_NONBLOCK w) ∧
    ((init_first_attempt env a p w).1 ≠ -EBUSY →
      init_opened env a p w
        = try_open_device env (init_requested env a p)
            (init_first_attempt env a p w).2.1
            (init_device env (init_requested env a p) p).1 0
            (init_first_attempt env a p w).2.2 ∧
      ((init_opened env a p w).1 < 0 → (init env a p w).ret = -1) ∧
      (0 ≤ (init_opened env a p w).1 →
        init env a p w
          = if (init_params_any env a p w).1.ret < 0 then
              init_fail (init_requested env a p) (init_opened env a p w).2.1
                (init_params_any env a p w).2
            else
              init_format env (init_device env (init_requested env a p) p).2
                (init_requested env a p) (init_opened env a p w).2.1
                (init_params_any env a p w).2)) ∧
    ((init_first_attempt env a p w).1 = -EBUSY →
      init_opened env a p w = init_first_attempt env a p w ∧
      (init env a p w).ret = -1 ∧
      (init env a p w).w
        = uninit (init_first_attempt env a p w).2.1 (init_first_attempt env a p w).2.2) := by
  have hop := (init_device_precedence env a p w).2.2.2
  refine ⟨?_, ?_, ?_⟩
  · unfold init_first_attempt
    rw [if_neg (by simp [hnb])]
  · intro hne
    have h2 : init_opened env a p w
        = try_open_device env (init_requested env a p)
            (init_first_attempt env a p w).2.1
            (init_device env (init_requested env a p) p).1 0
            (init_first_attempt env a p w).2.2 := by
      rw [hop, if_pos ⟨hfail, hne, hnb⟩]
    refine ⟨h2, fun h => (init_fails_at_open env a p w h).1, ?_⟩
    intro h
    unfold init
    rw [if_neg (not_lt.mpr h)]
  · intro hbusy
    have h2 : init_opened env a p w = init_first_attempt env a p w := by
      rw [hop, if_neg (by simp [hbusy])]
    have h3 : (init_opened env a p w).1 < 0 := by rw [h2]; exact hfail
    refine ⟨h2, (init_fails_at_open env a p w h3).1, ?_⟩
    rw [(init_fails_at_open env a p w h3).2, h2]

/-- C9 amended, at a concrete session: the non-blocking open fails with
`-EINVAL`, the blocking one succeeds. -/
theorem init_open_retry_witness :
    (priv_nonblock.cfg_block = 0 ∧
      (init_first_attempt sampleEnv ao_s16_stereo priv_nonblock
        ⟨dev_blocking_only, []⟩).1 < 0) ∧
    ((init_first_attempt sampleEnv ao_s16_stereo priv_nonblock
        ⟨dev_blocking_only, []⟩).1 ≠ -EBUSY →
      init_opened sampleEnv ao_s16_stereo priv_nonblock ⟨dev_blocking_only, []⟩
        = try_open_device sampleEnv (init_requested sampleEnv ao_s16_stereo priv_nonblock)
            (init_first_attempt sampleEnv ao_s16_stereo priv_nonblock
              ⟨dev_blocking_only, []⟩).2.1
            (init_device sampleEnv
              (init_requested sampleEnv ao_s16_stereo priv_nonblock) priv_nonblock).1 0
            (init_first_attempt sampleEnv ao_s16_stereo priv_nonblock
              ⟨dev_blocking_only, []⟩).2.2 ∧
      ((init_opened sampleEnv ao_s16_stereo priv_nonblock ⟨dev_blocking_only, []⟩).1 < 0 →
        (init sampleEnv ao_s16_stereo priv_nonblock ⟨dev_blocking_only, []⟩).ret = -1) ∧
      (0 ≤ (init_opened sampleEnv ao_s16_stereo priv_nonblock
          ⟨dev_blocking_only, []⟩).1 →
        init sampleEnv ao_s16_stereo priv_nonblock ⟨dev_blocking_only, []⟩
          = if (init_params_any sampleEnv ao_s16_stereo priv_nonblock
                ⟨dev_blocking_only, []⟩).1.ret < 0 then
              init_fail (init_requested sampleEnv ao_s16_stereo priv_nonblock)
                (init_opened sampleEnv ao_s16_stereo priv_nonblock
                  ⟨dev_blocking_only, []⟩).2.1
                (init_params_any sampleEnv ao_s16_stereo priv_nonblock
                  ⟨dev_blocking_only, []⟩).2
            else
              init_format sampleEnv
                (init_device sampleEnv
                  (init_requested sampleEnv ao_s16_stereo priv_nonblock) priv_nonblock).2
                (init_requested sampleEnv ao_s16_stereo priv_nonblock)
                (init_opened sampleEnv ao_s16_stereo priv_nonblock
                  ⟨dev_blocking_only, []⟩).2.1
                (init_params_any sampleEnv ao_s16_stereo priv_nonblock
                  ⟨dev_blocking_only, []⟩).2)) :=
  ⟨⟨by decide, by decide⟩,
    (init_open_retry sampleEnv ao_s16_stereo priv_nonblock ⟨dev_blocking_only, []⟩
      (by decide) (by decide)).2.1⟩

/-- In that session `init` opens twice, first non-blocking and then
blocking, and succeeds. -/
theorem init_blocking_retry_trace :
    (init sampleEnv ao_s16_stereo priv_nonblock ⟨dev_blocking_only, []⟩).ret = 0 ∧
    ((init sampleEnv ao_s16_stereo priv_nonblock
        ⟨dev_blocking_only, []⟩).w.log.map Prod.fst).take 2
      = [Call.snd_pcm_open "default" SND_PCM_NONBLOCK, Call.snd_pcm_open "default" 0] := by
  decide

/-! ## `uninit` -/

/-- C10, counterexample: on an open session (handle 1), two calls of
`uninit` in succession issue `snd_pcm_close` twice on the same handle; the
second call is not without a device operation.  The same happens when the
first close reported an error. -/
theorem uninit_twice_closes_twice :
    (uninit priv_open (uninit priv_open ⟨dev_s16_stereo_48k, []⟩)).log.map Prod.fst
      = [Call.snd_pcm_close 1, Call.snd_pcm_close 1] ∧
    (uninit priv_open ⟨dev_s16_stereo_48k, []⟩).log.map Prod.fst
      = [Call.snd_pcm_close 1] ∧
    (uninit priv_open (uninit priv_open ⟨dev_close_error, []⟩)).log.map Prod.fst
      = [Call.snd_pcm_close 1, Call.snd_pcm_close 1] := by
  decide

/-- C10, amended: `uninit` issues `snd_pcm_close` on the handle exactly when
the handle is not null, whatever that call returns, and it does not change
the session record, so the handle stays set.  On an open session a second
`uninit` therefore issues `snd_pcm_close` on the same handle once more.
Only on a session without a handle does `uninit` perform no device
operation, and there calling it twice is the same as calling it once. -/
theorem uninit_effect (p : priv) (w : World) :
    (p.alsa ≠ 0 →
      (uninit p w).log = w.log ++ [(Call.snd_pcm_close p.alsa,
        w.peek (Call.snd_pcm_close p.alsa))] ∧
      (uninit p (uninit p w)).log.map Prod.fst
        = w.log.map Prod.fst ++ [Call.snd_pcm_close p.alsa, Call.snd_pcm_close p.alsa]) ∧
    (p.alsa = 0 → uninit p w = w ∧ uninit p (uninit p w) = uninit p w) ∧
    (uninit p w).dev = w.dev := by
  refine ⟨?_, ?_, ?_⟩
  · intro h
    simp [uninit, h, World.call, World.peek]
  · intro h
    simp [uninit, h]
  · unfold uninit
    split <;> rfl

/-! ## `play`: the value returned -/

/-- When the frame count is zero after truncation, `play` returns 0 and
issues no call. -/
theorem play_zero (env : Env) (fuel : Nat) (a : ao) (p : priv) (samples : Int)
    (flags : Nat) (w : World)
    (h0 : (if flags &&& AOPLAY_FINAL_CHUNK = 0
        then to_int (samples.tdiv p.outburst * p.outburst) else samples) = 0) :
    play env fuel a p samples flags w = (some 0, w) := by
  unfold play
  simp only []
  rw [if_pos h0]

/-- For every finite sequence of write results made of `-EINTR`, `-EAGAIN`,
zero and write errors other than `-ESTRPIPE` that are each followed by a
successful `snd_pcm_prepare`, and ending in a positive result `n` (in the
range of `int`), the loop of `play` returns `n` as soon as the fuel exceeds
the length of the sequence. -/
theorem play_loop_returns (env : Env) (a : ao) (p : priv) (samples : Int)
    (rs : List Int) (n : Int) (hn : 0 < n) (hn2 : n < 2147483648) :
    ∀ (fuel : Nat) (w : World), rs.length < fuel →
      (∀ r ∈ rs, r ≤ 0 ∧ r ≠ -ESTRPIPE) →
      answers_writes (write_call env a samples) rs n w →
      (play_loop env a p samples fuel w).1 = some n := by
  induction rs with
  | nil =>
    intro fuel w hf _ hans
    obtain ⟨k, rfl⟩ : ∃ k, fuel = k + 1 := ⟨fuel - 1, by simp at hf; omega⟩
    have h1 : (w.call (write_call env a samples)).1.ret = n := hans
    simp only [play_loop, h1]
    rw [if_neg (by simp only [EINTR, EAGAIN]; omega),
      if_neg (by simp only [ESTRPIPE]; omega), if_neg (by omega), if_neg (by omega),
      if_neg (by omega), to_int_of_range n hn.le hn2]
  | cons r rs ih =>
    intro fuel w hf hall hans
    obtain ⟨k, rfl⟩ : ∃ k, fuel = k + 1 := ⟨fuel - 1, by simp at hf; omega⟩
    have hk : rs.length < k := by simp at hf; omega
    have hr := hall r (List.mem_cons_self _ _)
    have hrest : ∀ x ∈ rs, x ≤ 0 ∧ x ≠ -ESTRPIPE :=
      fun x hx => hall x (List.mem_cons_of_mem _ hx)
    obtain ⟨h1, h2⟩ := hans
    have h1c : (w.call (write_call env a samples)).1.ret = r := h1
    simp only [play_loop, h1c]
    by_cases hretry : r = -EINTR ∨ r = -EAGAIN
    · rw [if_pos hretry]
      rw [if_pos (by tauto)] at h2
      exact ih k _ hk hrest h2
    · rw [if_neg hretry, if_neg hr.2]
      by_cases hz : r = 0
      · rw [if_neg (by omega), if_pos hz]
        rw [if_pos (by tauto)] at h2
        exact ih k _ hk hrest h2
      · have hneg : r < 0 := by have := hr.1; omega
        rw [if_pos hneg]
        rw [if_neg (by tauto)] at h2
        have hp : ¬ ((w.call (write_call env a samples)).2.call
            Call.snd_pcm_prepare).1.ret < 0 := not_lt.mpr h2.1
        rw [if_neg hp]
        exact ih k _ hk hrest h2.2

/-- Whenever a `snd_pcm_prepare` issued after a write error fails, the loop
of `play` returns `-1`. -/
theorem play_loop_prepare_fails (env : Env) (a : ao) (p : priv) (samples : Int)
    (fuel : Nat) (w : World)
    (hw : (w.peek (write_call env a samples)).ret < 0)
    (h1 : (w.peek (write_call env a samples)).ret ≠ -EINTR)
    (h2 : (w.peek (write_call env a samples)).ret ≠ -EAGAIN)
    (h3 : (w.peek (write_call env a samples)).ret ≠ -ESTRPIPE)
    (hp : ((w.call (write_call env a samples)).2.peek Call.snd_pcm_prepare).ret < 0) :
    (play_loop env a p samples (fuel + 1) w).1 = some (-1) := by
  have hw2 : (w.call (write_call env a samples)).1.ret < 0 := hw
  have hp2 : ((w.call (write_call env a samples)).2.call Call.snd_pcm_prepare).1.ret < 0 :=
    hp
  have e1 : ¬ ((w.call (write_call env a samples)).1.ret = -EINTR ∨
      (w.call (write_call env a samples)).1.ret = -EAGAIN) := by
    intro h; rcases h with h | h
    · exact h1 h
    · exact h2 h
  have e3 : ¬ (w.call (write_call env a samples)).1.ret = -ESTRPIPE := h3
  simp only [play_loop]
  rw [if_neg e1, if_neg e3, if_pos hw2, if_pos hp2]

/-- The write sequence would-block, interrupted, `-EINVAL` (re-prepare
succeeds), 64: `play` returns 64 after four writes and one re-prepare. -/
theorem play_errors_then_64 :
    (play sampleEnv 6 ao_s16_stereo priv_1024_64 64 0 ⟨dev_errors_then_64, []⟩).1
      = some 64 ∧
    (play sampleEnv 6 ao_s16_stereo priv_1024_64 64 0
        ⟨dev_errors_then_64, []⟩).2.log.map Prod.fst
      = [Call.snd_pcm_writei 64, Call.snd_pcm_writei 64, Call.snd_pcm_writei 64,
          Call.snd_pcm_prepare, Call.snd_pcm_writei 64] := by
  decide

/-- A failing re-prepare: `play` returns `-1`. -/
theorem play_prepare_fails_example :
    (play sampleEnv 6 ao_s16_stereo priv_1024_64 64 0 ⟨dev_prepare_fails, []⟩).1
      = some (-1) := by
  decide

/-- C12, the failing input: a write of 64 frames on a device with native
pause whose first write would block and whose second write returns
`-ESTRPIPE`.  `play` returns `-1` although no `snd_pcm_prepare` failed: none
was even issued, and the device would have consumed 64 frames on the next
write.  This is the defect of C3 seen from the return value. -/
theorem play_fails_without_prepare_failure :
    (play sampleEnv 6 ao_s16_stereo priv_can_pause 64 0
        ⟨dev_block_then_suspended, []⟩).1 = some (-1) ∧
    (play sampleEnv 6 ao_s16_stereo priv_can_pause 64 0
        ⟨dev_block_then_suspended, []⟩).2.log.map Prod.fst
      = [Call.snd_pcm_writei 64, Call.snd_pcm_writei 64, Call.snd_pcm_state,
          Call.snd_pcm_state] ∧
    (World.peek (play sampleEnv 6 ao_s16_stereo priv_can_pause 64 0
        ⟨dev_block_then_suspended, []⟩).2 (Call.snd_pcm_writei 64)).ret = 64 := by
  decide

/-! ## `get_delay` is never negative -/

theorem init_sw_pause_memory (chunk_size : Nat) (a : ao) (p : priv) (w : World) :
    (init_sw chunk_size a p w).p.delay_before_pause = p.delay_before_pause := by
  unfold init_sw
  simp only []
  split_ifs <;> rfl

theorem init_geometry_pause_memory (a : ao) (p : priv) (w : World) :
    (init_geometry a p w).p.delay_before_pause = p.delay_before_pause := by
  unfold init_geometry
  simp only []
  split_ifs <;> first | rfl | exact init_sw_pause_memory _ _ _ _

theorem init_get_chmap_pause_memory (env : Env) (a : ao) (p : priv) (w : World) :
    (init_get_chmap env a p w).p.delay_before_pause = p.delay_before_pause := by
  unfold init_get_chmap
  simp only []
  split
  · exact init_geometry_pause_memory _ _ _
  · split_ifs <;> exact init_geometry_pause_memory _ _ _

theorem init_chmap_pause_memory (env : Env) (dev_chmap : mp_chmap) (a : ao) (p : priv)
    (w : World) :
    (init_chmap env dev_chmap a p w).p.delay_before_pause = p.delay_before_pause := by
  unfold init_chmap
  simp only []
  split_ifs <;>
    first
    | rfl
    | exact init_get_chmap_pause_memory _ _ _ _
    | exact init_geometry_pause_memory _ _ _

theorem init_rate_pause_memory (env : Env) (dev_chmap : mp_chmap) (a : ao) (p : priv)
    (w : World) :
    (init_rate env dev_chmap a p w).p.delay_before_pause = p.delay_before_pause := by
  unfold init_rate
  simp only []
  split_ifs <;> first | rfl | exact init_chmap_pause_memory _ _ _ _ _

theorem init_channels_pause_memory (env : Env) (implied_chmap : mp_chmap) (a : ao)
    (p : priv) (w : World) :
    (init_channels env implied_chmap a p w).p.delay_before_pause
      = p.delay_before_pause := by
  unfold init_channels init_granted
  split_ifs <;> first | rfl | exact init_rate_pause_memory _ _ _ _ _

theorem init_access_pause_memory (env : Env) (implied_chmap : mp_chmap) (a : ao)
    (p : priv) (w : World) :
    (init_access env implied_chmap a p w).p.delay_before_pause
      = p.delay_before_pause := by
  unfold init_access
  simp only []
  split_ifs <;> first | rfl | exact init_channels_pause_memory _ _ _ _ _

theorem init_format_pause_memory (env : Env) (implied_chmap : mp_chmap) (a : ao)
    (p : priv) (w : World) :
    (init_format env implied_chmap a p w).p.delay_before_pause
      = p.delay_before_pause := by
  unfold init_format
  simp only []
  split_ifs <;>
    first
    | rfl
    | exact (init_access_pause_memory _ _ _ _ _).trans rfl

theorem pcm_open_pause_memory (p : priv) (name : String) (mode : Int) (w : World) :
    (pcm_open p name mode w).2.1.delay_before_pause = p.delay_before_pause := by
  unfold pcm_open
  simp only []
  split_ifs <;> rfl

theorem try_open_device_pause_memory (env : Env) (a : ao) (p : priv) (device : String)
    (mode : Int) (w : World) :
    (try_open_device env a p device mode w).2.1.delay_before_pause
      = p.delay_before_pause := by
  unfold try_open_device
  simp only []
  split_ifs
  · exact pcm_open_pause_memory _ _ _ _
  · exact (pcm_open_pause_memory _ _ _ _).trans (pcm_open_pause_memory _ _ _ _)
  · exact pcm_open_pause_memory _ _ _ _

theorem init_opened_pause_memory (env : Env) (a : ao) (p : priv) (w : World) :
    (init_opened env a p w).2.1.delay_before_pause = p.delay_before_pause := by
  unfold init_opened init_open
  simp only []
  split_ifs <;>
    first
    | exact try_open_device_pause_memory _ _ _ _ _ _
    | exact (try_open_device_pause_memory _ _ _ _ _ _).trans
        (try_open_device_pause_memory _ _ _ _ _ _)

/-- The function `init` leaves `delay_before_pause` as it finds it. -/
theorem init_pause_memory (env : Env) (a : ao) (p : priv) (w : World) :
    (init env a p w).p.delay_before_pause = p.delay_before_pause := by
  unfold init
  split_ifs
  · exact init_opened_pause_memory _ _ _ _
  · exact init_opened_pause_memory _ _ _ _
  · exact (init_format_pause_memory _ _ _ _ _).trans (init_opened_pause_memory _ _ _ _)

theorem get_delay_nonneg (a : ao) (p : priv) (w : World)
    (hrate : 0 < a.samplerate) (hp : 0 ≤ p.delay_before_pause) :
    0 ≤ (get_delay a p w).1 := by
  have hr : (0 : ℚ) ≤ (a.samplerate : ℚ) := by exact_mod_cast hrate.le
  unfold get_delay
  simp only []
  split_ifs with h1 h2 h3
  · exact hp
  · exact le_rfl
  · simp
  · have hd : (0 : ℚ) ≤ (((w.call Call.snd_pcm_state).2.call Call.snd_pcm_delay).1.sval : ℚ) := by
      exact_mod_cast not_lt.mp h3
    exact div_nonneg hd hr

theorem audio_pause_nonneg (a : ao) (p : priv) (w : World)
    (hrate : 0 < a.samplerate) (hp : 0 ≤ p.delay_before_pause) :
    0 ≤ (audio_pause a p w).1.delay_before_pause := by
  have hr : (0 : ℚ) ≤ (a.samplerate : ℚ) := by exact_mod_cast hrate.le
  unfold audio_pause
  simp only []
  split_ifs with h1 h2 h3
  · exact get_delay_nonneg a p _ hrate hp
  · exact hp
  · simp
  · have h4 : 0 ≤ (w.call Call.snd_pcm_delay).1.sval := by
      by_contra hc
      exact h3 (Or.inr (not_le.mp hc))
    have hd : (0 : ℚ) ≤ ((w.call Call.snd_pcm_delay).1.sval : ℚ) := by exact_mod_cast h4
    exact div_nonneg hd hr

theorem step_nonneg (env : Env) (a : ao) (s : priv × World) (op : Op)
    (hrate : 0 < a.samplerate) (hp : 0 ≤ s.1.delay_before_pause) :
    0 ≤ (step env a s op).1.delay_before_pause := by
  cases op with
  | play fuel samples flags => exact hp
  | audio_pause => exact audio_pause_nonneg a s.1 s.2 hrate hp
  | audio_resume fuel => exact hp
  | reset =>
    show 0 ≤ (reset s.1 s.2).1.delay_before_pause
    unfold reset
    simp only []
    split_ifs <;> exact le_rfl
  | get_delay => exact hp

theorem run_nonneg (env : Env) (a : ao) (ops : List Op) (hrate : 0 < a.samplerate) :
    ∀ s : priv × World, 0 ≤ s.1.delay_before_pause →
      0 ≤ (run env a s ops).1.delay_before_pause := by
  induction ops with
  | nil => intro s hs; exact hs
  | cons op rest ih =>
    intro s hs
    exact ih (step env a s op) (step_nonneg env a s op hrate hs)

/-- C13: take a session whose `delay_before_pause` is not negative (it is
0 in a fresh session), run `init`, and let the negotiated sample rate be
positive.  After any sequence of `play`, `audio_pause`, `audio_resume`,
`reset` and `get_delay` calls, `delay_before_pause` is still not negative
and `get_delay` returns a value `>= 0`.  Moreover, in any state that is not
paused: when the live delay query fails, `get_delay` returns 0; and when it
reports a negative count `d` (the sample rate being positive), `get_delay`
issues `snd_pcm_forward` for `-d` frames as its last call and returns 0. -/
theorem get_delay_never_negative (env : Env) (a0 : ao) (p0 : priv) (w0 : World)
    (ops : List Op)
    (hfresh : 0 ≤ p0.delay_before_pause)
    (hrate : 0 < (init env a0 p0 w0).a.samplerate) :
    0 ≤ (run env (init env a0 p0 w0).a
          ((init env a0 p0 w0).p, (init env a0 p0 w0).w) ops).1.delay_before_pause ∧
    0 ≤ (get_delay (init env a0 p0 w0).a
          (run env (init env a0 p0 w0).a
            ((init env a0 p0 w0).p, (init env a0 p0 w0).w) ops).1
          (run env (init env a0 p0 w0).a
            ((init env a0 p0 w0).p, (init env a0 p0 w0).w) ops).2).1 ∧
    (∀ (a : ao) (p : priv) (w : World),
      (w.peek Call.snd_pcm_state).st ≠ PcmState.PAUSED →
      ((w.call Call.snd_pcm_state).2.peek Call.snd_pcm_delay).ret < 0 →
      (get_delay a p w).1 = 0) ∧
    (∀ (a : ao) (p : priv) (w : World), 0 < a.samplerate →
      (w.peek Call.snd_pcm_state).st ≠ PcmState.PAUSED →
      0 ≤ ((w.call Call.snd_pcm_state).2.peek Call.snd_pcm_delay).ret →
      ((w.call Call.snd_pcm_state).2.peek Call.snd_pcm_delay).sval < 0 →
      (get_delay a p w).1 = 0 ∧
      ((get_delay a p w).2.log.map Prod.fst).getLast?
        = some (Call.snd_pcm_forward
            (-((w.call Call.snd_pcm_state).2.peek Call.snd_pcm_delay).sval))) := by
  have hinv : 0 ≤ (init env a0 p0 w0).p.delay_before_pause := by
    rw [init_pause_memory]; exact hfresh
  have hrun := run_nonneg env (init env a0 p0 w0).a ops hrate
    ((init env a0 p0 w0).p, (init env a0 p0 w0).w) hinv
  refine ⟨hrun, get_delay_nonneg _ _ _ hrate hrun, ?_, ?_⟩
  · intro a p w hst hfail
    have h1 : ¬ (w.call Call.snd_pcm_state).1.st = PcmState.PAUSED := hst
    have h2 : ((w.call Call.snd_pcm_state).2.call Call.snd_pcm_delay).1.ret < 0 := hfail
    simp only [get_delay, if_neg h1, if_pos h2]
  · intro a p w _ hst hok hneg
    have h1 : ¬ (w.call Call.snd_pcm_state).1.st = PcmState.PAUSED := hst
    have h2 : ¬ ((w.call Call.snd_pcm_state).2.call Call.snd_pcm_delay).1.ret < 0 :=
      not_lt.mpr hok
    have h3 : ((w.call Call.snd_pcm_state).2.call Call.snd_pcm_delay).1.sval < 0 := hneg
    simp only [get_delay, if_neg h1, if_neg h2, if_pos h3]
    refine ⟨by simp, ?_⟩
    simp [World.call, World.peek]

/-- C13 at a concrete session: the 16 bit stereo device, then a pause, a
reset, a write and a resume. -/
theorem get_delay_never_negative_witness :
    ((0 : ℚ) ≤ ({} : priv).delay_before_pause ∧
      0 < (init sampleEnv ao_s16_stereo {} ⟨dev_s16_stereo_48k, []⟩).a.samplerate) ∧
    0 ≤ (get_delay (init sampleEnv ao_s16_stereo {} ⟨dev_s16_stereo_48k, []⟩).a
          (run sampleEnv (init sampleEnv ao_s16_stereo {} ⟨dev_s16_stereo_48k, []⟩).a
            ((init sampleEnv ao_s16_stereo {} ⟨dev_s16_stereo_48k, []⟩).p,
              (init sampleEnv ao_s16_stereo {} ⟨dev_s16_stereo_48k, []⟩).w)
            [Op.audio_pause, Op.reset, Op.play 3 750 0, Op.audio_resume 3]).1
          (run sampleEnv (init sampleEnv ao_s16_stereo {} ⟨dev_s16_stereo_48k, []⟩).a
            ((init sampleEnv ao_s16_stereo {} ⟨dev_s16_stereo_48k, []⟩).p,
              (init sampleEnv ao_s16_stereo {} ⟨dev_s16_stereo_48k, []⟩).w)
            [Op.audio_pause, Op.reset, Op.play 3 750 0, Op.audio_resume 3]).2).1 :=
  ⟨⟨le_rfl, by decide⟩,
    (get_delay_never_negative sampleEnv ao_s16_stereo {} ⟨dev_s16_stereo_48k, []⟩
      [Op.audio_pause, Op.reset, Op.play 3 750 0, Op.audio_resume 3]
      le_rfl (by decide)).2.1⟩

/-- An underrun of 100 frames: `get_delay` forwards the play position by 100
frames and returns 0. -/
theorem get_delay_underrun :
    (get_delay ao_s16_stereo priv_can_pause ⟨dev_underrun, []⟩).1 = 0 ∧
    (get_delay ao_s16_stereo priv_can_pause ⟨dev_underrun, []⟩).2.log.map Prod.fst
      = [Call.snd_pcm_state, Call.snd_pcm_delay, Call.snd_pcm_forward 100] := by
  constructor
  · simp [get_delay, World.call, dev_underrun]
  · decide

/-! ## `select_chmap` -/

theorem same_speakers_perm (c m1 m2 : mp_chmap) (hn : m1.num = m2.num)
    (hp : m1.speaker.Perm m2.speaker) :
    same_speakers c m1 = same_speakers c m2 := by
  have hmem : ∀ s, s ∈ m1.speaker ↔ s ∈ m2.speaker := fun s => hp.mem_iff
  have hc : ∀ s, m1.speaker.contains s = m2.speaker.contains s := by
    intro s
    rw [Bool.eq_iff_iff]
    simp only [List.contains, List.elem_iff]
    exact hmem s
  have h3 : m1.speaker.all (fun s => c.speaker.contains s)
      = m2.speaker.all (fun s => c.speaker.contains s) := by
    rw [Bool.eq_iff_iff]
    simp only [List.all_eq_true]
    exact ⟨fun h s hs => h s ((hmem s).mpr hs), fun h s hs => h s ((hmem s).mp hs)⟩
  unfold same_speakers
  simp only [hn, hc, h3]

theorem select_chmap_loop_no_match (env : Env) (chmap : mp_chmap) :
    ∀ table : List (String × String),
      (∀ e ∈ table, env.mp_chmap_equals chmap (env.mp_chmap_from_str e.2) = false) →
      select_chmap_loop env chmap table = "default" := by
  intro table
  induction table with
  | nil => intro _; rfl
  | cons e rest ih =>
    intro h
    have he := h e (List.mem_cons_self _ _)
    simp only [select_chmap_loop, he]
    exact ih (fun x hx => h x (List.mem_cons_of_mem _ hx))

/-- C14: with the layout policy of the specification, `select_chmap` returns
the device name "default" both for front-left, front-right and for
front-right, front-left; more generally it returns the same name for any two
requested layouts with the same channel count whose speakers are a
permutation of each other.  And for every layout policy, whenever no entry
of the table matches (the policy reports failure, or no entry equals the
layout it chose), the result is "default". -/
theorem select_chmap_order_independent :
    ((select_chmap specEnv chmap_fl_fr).1 = "default" ∧
      (select_chmap specEnv chmap_fr_fl).1 = "default") ∧
    (∀ (env : Env) (m1 m2 : mp_chmap),
      env.ao_chmap_sel_adjust = spec_chmap_sel_adjust →
      m1.num = m2.num → m1.speaker.Perm m2.speaker →
      (select_chmap env m1).1 = (select_chmap env m2).1) ∧
    (∀ (env : Env) (chmap : mp_chmap),
      (env.ao_chmap_sel_adjust
          (device_channel_layouts.map fun e => env.mp_chmap_from_str e.2) chmap).1 = false ∨
      (∀ e ∈ device_channel_layouts,
        env.mp_chmap_equals
          (env.ao_chmap_sel_adjust
            (device_channel_layouts.map fun e => env.mp_chmap_from_str e.2) chmap).2
          (env.mp_chmap_from_str e.2) = false) →
      (select_chmap env chmap).1 = "default") := by
  refine ⟨by decide, ?_, ?_⟩
  · intro env m1 m2 hpol hn hp
    have hpred : (fun c => same_speakers c m1) = (fun c => same_speakers c m2) := by
      funext c
      exact same_speakers_perm c m1 m2 hn hp
    unfold select_chmap
    simp only [hpol, spec_chmap_sel_adjust, hpred]
    cases (device_channel_layouts.map fun e => env.mp_chmap_from_str e.2).find?
        (fun c => same_speakers c m2) with
    | none => simp
    | some c => simp
  · intro env chmap h
    unfold select_chmap
    simp only []
    rcases h with h | h
    · simp [h]
    · split_ifs
      · exact select_chmap_loop_no_match env _ _ h
      · rfl

/-- A layout that is in no entry of the table selects "default", and the
5.1 layout selects "surround51" whatever the order of its speakers. -/
theorem select_chmap_examples :
    (select_chmap specEnv chmap_tc).1 = "default" ∧
    (select_chmap specEnv ao_float_51.channels).1 = "surround51" ∧
    (select_chmap specEnv
      { num := 6, speaker := [MpSpeaker.LFE, MpSpeaker.FC, MpSpeaker.BR, MpSpeaker.BL,
          MpSpeaker.FR, MpSpeaker.FL] }).1 = "surround51" := by
  decide

/-! ## `reset` -/

theorem reset_record (p : priv) (w : World) :
    (reset p w).1 = { p with prepause_frames := 0, delay_before_pause := 0 } := by
  unfold reset
  simp only []
  split_ifs <;> rfl

theorem audio_resume_native_quiet (fuel : Nat) (p : priv) (w : World)
    (hcp : p.can_pause ≠ 0) :
    Extends quiet w (audio_resume fuel p w).2 := by
  have htail : ∀ w1 : World, Extends quiet w1 (audio_resume_tail p w1) := by
    intro w1
    unfold audio_resume_tail
    rw [if_pos hcp]
    simp only []
    split_ifs
    · exact (Extends.call _ _ (by simp [quiet])).trans (Extends.call _ _ (by simp [quiet]))
    · exact Extends.call _ _ (by simp [quiet])
  have h1 : Extends quiet w (w.call Call.snd_pcm_state).2 :=
    Extends.call _ _ (by simp [quiet])
  unfold audio_resume
  simp only []
  split
  · have h2 := resume_loop_quiet fuel (w.call Call.snd_pcm_state).2
    split
    · rename_i w1 heq
      rw [heq] at h2
      exact h1.trans h2
    · rename_i x w1 heq
      rw [heq] at h2
      exact h1.trans (h2.trans (htail w1))
  · exact h1.trans (htail _)

/-- With no in-flight frames recorded, `audio_resume` requests no silence,
on a device with or without native pause. -/
theorem audio_resume_no_silence (fuel : Nat) (p : priv) (w : World)
    (h0 : p.prepause_frames = 0) :
    ∃ T, (audio_resume fuel p w).2.log = w.log ++ T ∧ silence_calls T = [] := by
  by_cases hcp : p.can_pause = 0
  · obtain ⟨T, hT, hs, _⟩ := audio_resume_emulated fuel p w hcp
    refine ⟨T, hT, ?_⟩
    rw [hs, if_neg (by simp [h0])]
  · obtain ⟨_, l, hl, hq⟩ := audio_resume_native_quiet fuel p w hcp
    exact ⟨l, hl, (quiet_trace l hq).1⟩

/-- C15: for every session state and every device, after `reset` the fields
`prepause_frames` and `delay_before_pause` are 0, whether or not
`snd_pcm_drop` or `snd_pcm_prepare` fails, and every other field of the
session record (handle, `alsa_fmt`, `can_pause`, `buffersize`, `outburst`
and the configuration) is unchanged; and an `audio_resume` that follows
`reset` requests no silence. -/
theorem reset_clears_pause_memory (p : priv) (w : World) (fuel : Nat) :
    (reset p w).1.prepause_frames = 0 ∧
    (reset p w).1.delay_before_pause = 0 ∧
    (reset p w).1 = { p with prepause_frames := 0, delay_before_pause := 0 } ∧
    ((reset p w).1.buffersize = p.buffersize ∧ (reset p w).1.outburst = p.outburst ∧
      (reset p w).1.can_pause = p.can_pause ∧ (reset p w).1.alsa_fmt = p.alsa_fmt ∧
      (reset p w).1.alsa = p.alsa ∧ (reset p w).1.cfg_block = p.cfg_block ∧
      (reset p w).1.cfg_device = p.cfg_device ∧
      (reset p w).1.cfg_mixer_device = p.cfg_mixer_device ∧
      (reset p w).1.cfg_mixer_name = p.cfg_mixer_name ∧
      (reset p w).1.cfg_mixer_index = p.cfg_mixer_index ∧
      (reset p w).1.cfg_resample = p.cfg_resample ∧ (reset p w).1.cfg_ni = p.cfg_ni) ∧
    (∃ T, (audio_resume fuel (reset p w).1 (reset p w).2).2.log
        = (reset p w).2.log ++ T ∧ silence_calls T = []) := by
  have hr := reset_record p w
  refine ⟨by rw [hr], by rw [hr], hr, ?_, ?_⟩
  · rw [hr]
    exact ⟨rfl, rfl, rfl, rfl, rfl, rfl, rfl, rfl, rfl, rfl, rfl, rfl⟩
  · exact audio_resume_no_silence fuel _ _ (by rw [hr])

/-- A session that remembers 300 in-flight frames, on a device whose drop
fails: after `reset` the memory is cleared, `snd_pcm_prepare` is not issued,
and the following `audio_resume` re-prepares and requests no silence. -/
theorem reset_drop_fails_example :
    (reset priv_paused_300 ⟨dev_drop_fails, []⟩).1.prepause_frames = 0 ∧
    (audio_resume 3 (reset priv_paused_300 ⟨dev_drop_fails, []⟩).1
        (reset priv_paused_300 ⟨dev_drop_fails, []⟩).2).2.log.map Prod.fst
      = [Call.snd_pcm_drop, Call.snd_pcm_state, Call.snd_pcm_prepare] := by
  decide

/-- Without the `reset`, the same `audio_resume` requests 300 frames of
silence. -/
theorem resume_without_reset_example :
    (audio_resume 3 priv_paused_300 ⟨dev_drop_fails, []⟩).2.log.map Prod.fst
      = [Call.snd_pcm_state, Call.snd_pcm_prepare, Call.ao_play_silence 300] := by
  decide

/-! ## `append_params` -/

theorem dropWhile_no_colon (l : List Char) (h : ':' ∉ l) :
    l.dropWhile (fun c => c ≠ ':') = [] := by
  induction l with
  | nil => rfl
  | cons x t ih =>
    have hx : x ≠ ':' := fun e => h (by rw [e]; exact List.mem_cons_self _ _)
    have ht : ':' ∉ t := fun e => h (List.mem_cons_of_mem _ e)
    rw [List.dropWhile_cons, if_pos (by simpa using hx)]
    exact ih ht

theorem dropWhile_first_colon (pre rest : List Char) (h : ':' ∉ pre) :
    (pre ++ ':' :: rest).dropWhile (fun c => c ≠ ':') = ':' :: rest := by
  induction pre with
  | nil => simp
  | cons x t ih =>
    have hx : x ≠ ':' := fun e => h (by rw [e]; exact List.mem_cons_self _ _)
    have ht : ':' ∉ t := fun e => h (List.mem_cons_of_mem _ e)
    rw [List.cons_append, List.dropWhile_cons, if_pos (by simpa using hx)]
    exact ih ht

/-- C16: `append_params(device, p)` places the parameters according to the
form of the device string.  A null or empty `p` leaves `device` unchanged.
Otherwise: without a `:` in `device` the result is `device`, `:` and `p`;
when the first `:` is the last character it is `device` followed by `p`;
when the character after the first `:` is an opening brace and `device` ends
with a closing brace it is `device` without that last brace, a blank, `p`
and a closing brace; in every other case it is `device`, a comma and `p`. -/
theorem append_params_forms (device : String) (p : Option String) :
    (p = none ∨ p = some "" → append_params device p = device) ∧
    (∀ ps, p = some ps → ps ≠ "" →
      (':' ∉ device.toList → append_params device p = device ++ ":" ++ ps) ∧
      (∀ pre rest, device.toList = pre ++ ':' :: rest → ':' ∉ pre →
        (rest = [] → append_params device p = device ++ ps) ∧
        (∀ c rest1, rest = c :: rest1 →
          (c = '\x7b' ∧ device.toList.getLast? = some '\x7d' →
            append_params device p
              = String.mk device.toList.dropLast ++ " " ++ ps ++ "\x7d") ∧
          (¬ (c = '\x7b' ∧ device.toList.getLast? = some '\x7d') →
            append_params device p = device ++ "," ++ ps)))) := by
  constructor
  · intro h
    rcases h with h | h <;> simp [append_params, h]
  · intro ps hp hne
    subst hp
    constructor
    · intro hno
      simp only [append_params, if_neg hne, dropWhile_no_colon _ hno]
    · intro pre rest hsplit hpre
      have hd := dropWhile_first_colon pre rest hpre
      rw [← hsplit] at hd
      constructor
      · intro hr
        subst hr
        simp only [append_params, if_neg hne, hd]
      · intro c rest1 hr
        subst hr
        constructor
        · intro hc
          simp only [append_params, if_neg hne, hd, if_pos hc]
        · intro hc
          simp only [append_params, if_neg hne, hd, if_neg hc]

/-- The four forms on concrete device strings, and the parameter string
`try_open_device` builds for a passthrough stream at 48000 Hz. -/
theorem append_params_examples :
    append_params "iec958" (some "AES0=6") = "iec958:AES0=6" ∧
    append_params "hw:" (some "AES0=6") = "hw:AES0=6" ∧
    append_params "hw:0" (some "AES0=6") = "hw:0,AES0=6" ∧
    append_params "plug:\x7bSLAVE=x\x7d" (some "AES0=6") = "plug:\x7bSLAVE=x AES0=6\x7d" ∧
    append_params "plug:\x7bSLAVE=x" (some "AES0=6") = "plug:\x7bSLAVE=x,AES0=6" ∧
    append_params "hw:0" none = "hw:0" ∧
    append_params "hw:0" (some "") = "hw:0" ∧
    append_params "iec958" (some (iec958_params ao_passthrough))
      = "iec958:AES0=6,AES1=130,AES2=0,AES3=2" := by
  decide

/-! ## `control`: failure values -/

/-- C11, counterexample: for `AOCONTROL_GET_VOLUME` on a 16 bit stream, a
mixer that opens, attaches, registers and loads but has no control "Master",0
makes `control` return the very value it returns when the mixer cannot be
opened or cannot be attached; the value is not distinct. -/
theorem control_not_found_not_distinct :
    (control sampleEnv sampleCodes ao_s16_stereo {} aocontrol.GET_VOLUME vol_50 false
        ⟨dev_mixer_no_control, []⟩).ret
      = (control sampleEnv sampleCodes ao_s16_stereo {} aocontrol.GET_VOLUME vol_50 false
        ⟨dev_mixer_open_fails, []⟩).ret ∧
    (control sampleEnv sampleCodes ao_s16_stereo {} aocontrol.GET_VOLUME vol_50 false
        ⟨dev_mixer_no_control, []⟩).ret
      = (control sampleEnv sampleCodes ao_s16_stereo {} aocontrol.GET_VOLUME vol_50 false
        ⟨dev_mixer_attach_fails, []⟩).ret ∧
    (control sampleEnv sampleCodes ao_s16_stereo {} aocontrol.GET_VOLUME vol_50 false
        ⟨dev_mixer_no_control, []⟩).w.log.map Prod.fst
      = [Call.snd_mixer_open 0, Call.snd_mixer_attach (some "default"),
          Call.snd_mixer_selem_register, Call.snd_mixer_load,
          Call.snd_mixer_find_selem (some "Master") 0, Call.snd_mixer_close 7] ∧
    (control sampleEnv sampleCodes ao_s16_stereo {} aocontrol.GET_VOLUME vol_50 false
        ⟨dev_mixer_open_fails, []⟩).w.log.map Prod.fst
      = [Call.snd_mixer_open 0] := by
  decide

/-- C11, amended: for a volume or mute command on a format that is not
special, `control` returns `CONTROL_ERROR` when the mixer cannot be opened,
when it cannot be attached, and also when it opens, attaches, registers and
loads but has no simple control of the configured name and index: one and
the same value in the three cases.  In the last case the volume and the
mute flag are left as they were and the final call is the
`snd_mixer_close` of the mixer handle. -/
theorem control_failure_value (env : Env) (cc : ControlCodes) (a : ao) (p : priv)
    (cmd : aocontrol) (vol : ao_control_vol_t) (mute : Bool) (w : World)
    (hcmd : ∀ n, cmd ≠ aocontrol.other n)
    (hfmt : env.AF_FORMAT_IS_SPECIAL a.format = false) :
    ((control_open w).1.ret < 0 →
      (control env cc a p cmd vol mute w).ret = cc.CONTROL_ERROR) ∧
    (0 ≤ (control_open w).1.ret → (control_attach p w).1.ret < 0 →
      (control env cc a p cmd vol mute w).ret = cc.CONTROL_ERROR) ∧
    (0 ≤ (control_open w).1.ret → 0 ≤ (control_attach p w).1.ret →
      0 ≤ (control_register p w).1.ret → 0 ≤ (control_load p w).1.ret →
      (control_find p w).1.uval = 0 →
      (control env cc a p cmd vol mute w).ret = cc.CONTROL_ERROR ∧
      (control env cc a p cmd vol mute w).mute = mute ∧
      (control env cc a p cmd vol mute w).w
        = (if (control_open w).1.uval ≠ 0 then
            ((control_find p w).2.call
              (Call.snd_mixer_close (control_open w).1.uval)).2
          else (control_find p w).2)) := by
  have hunf : control env cc a p cmd vol mute w
      = (if (control_open w).1.ret < 0 then
          control_error cc (if 0 ≤ (control_open w).1.ret then (control_open w).1.uval else 0)
            vol mute (control_open w).2
        else if (control_attach p w).1.ret < 0 then
          control_error cc (if 0 ≤ (control_open w).1.ret then (control_open w).1.uval else 0)
            vol mute (control_attach p w).2
        else if (control_register p w).1.ret < 0 then
          control_error cc (if 0 ≤ (control_open w).1.ret then (control_open w).1.uval else 0)
            vol mute (control_register p w).2
        else if (control_load p w).1.ret < 0 then
          control_error cc (if 0 ≤ (control_open w).1.ret then (control_open w).1.uval else 0)
            vol mute (control_load p w).2
        else if (control_find p w).1.uval = 0 then
          control_error cc (if 0 ≤ (control_open w).1.ret then (control_open w).1.uval else 0)
            vol mute (control_find p w).2
        else
          control_elem cc cmd
            (if 0 ≤ (control_open w).1.ret then (control_open w).1.uval else 0)
            ((control_find p w).2.call Call.snd_mixer_selem_get_playback_volume_range).1.sval
            ((control_find p w).2.call Call.snd_mixer_selem_get_playback_volume_range).1.sval2
            vol mute
            ((control_find p w).2.call Call.snd_mixer_selem_get_playback_volume_range).2) := by
    cases cmd with
    | other n => exact absurd rfl (hcmd n)
    | GET_VOLUME => simp only [control, hfmt]; rfl
    | SET_VOLUME => simp only [control, hfmt]; rfl
    | GET_MUTE => simp only [control, hfmt]; rfl
    | SET_MUTE => simp only [control, hfmt]; rfl
  refine ⟨?_, ?_, ?_⟩
  · intro h1
    rw [hunf, if_pos h1]
    rfl
  · intro h1 h2
    rw [hunf, if_neg (not_lt.mpr h1), if_pos h2]
    rfl
  · intro h1 h2 h3 h4 h5
    rw [hunf, if_neg (not_lt.mpr h1), if_neg (not_lt.mpr h2), if_neg (not_lt.mpr h3),
      if_neg (not_lt.mpr h4), if_pos h5, if_pos h1]
    exact ⟨rfl, rfl, rfl⟩

/-- C11 amended, at a concrete call: `AOCONTROL_SET_VOLUME` on a mixer
without the control. -/
theorem control_failure_value_witness :
    ((∀ n, aocontrol.SET_VOLUME ≠ aocontrol.other n) ∧
      sampleEnv.AF_FORMAT_IS_SPECIAL ao_s16_stereo.format = false ∧
      0 ≤ (control_open ⟨dev_mixer_no_control, []⟩).1.ret ∧
      0 ≤ (control_attach {} ⟨dev_mixer_no_control, []⟩).1.ret ∧
      0 ≤ (control_register {} ⟨dev_mixer_no_control, []⟩).1.ret ∧
      0 ≤ (control_load {} ⟨dev_mixer_no_control, []⟩).1.ret ∧
      (control_find {} ⟨dev_mixer_no_control, []⟩).1.uval = 0) ∧
    (control sampleEnv sampleCodes ao_s16_stereo {} aocontrol.SET_VOLUME vol_50 false
        ⟨dev_mixer_no_control, []⟩).ret = sampleCodes.CONTROL_ERROR :=
  ⟨⟨fun _ h => aocontrol.noConfusion h, by decide, by decide, by decide, by decide,
      by decide, by decide⟩,
    ((control_failure_value sampleEnv sampleCodes ao_s16_stereo {} aocontrol.SET_VOLUME
      vol_50 false ⟨dev_mixer_no_control, []⟩ (fun _ h => aocontrol.noConfusion h)
      (by decide)).2.2
      (by decide) (by decide) (by decide) (by decide) (by decide)).1⟩

end AoAlsa
